import Mathlib

/-!
Verification development for the draft-generator repository
(`src/orchestrator.py` and `src/validation.py`).

The Python code is shallowly embedded: pure functions become Lean
functions, the validator's mutable accumulators (`errors`, `warnings`,
`blocking_issues`, `suggestions`) become an explicit `VState` record
threaded through the checks, Python `int` becomes `Int`, and Python
strings become Lean `String` with explicit models of the string
primitives used by the source (`in`, `strip()`, `lower()`, `isupper()`,
regular-expression checks, `int(...)` parsing).

External inputs that the source loads from configuration files
(`jurisdiction_profiles.json`, `rti_categories.json`) and the ambient
date are passed in as an explicit read-only `Config` value, and the
optional Groq LLM call is modelled by an `Option GroqResult` parameter:
`none` covers the no-credentials and silent-failure fallback paths of
`analyze_requirements`, `some r` a successfully parsed service reply
(whose `document_type` is one of the two document types, per the
service's response contract; malformed replies are dropped by the
source's exception handler and therefore fall under `none`).
-/

set_option maxRecDepth 2000000
set_option maxHeartbeats 4000000

namespace DraftGen

/-- Occurrence of `needle` as a contiguous run of characters inside the
second list: the character-level model of Python's `needle in hay`. -/
def subSearch (needle : List Char) : List Char → Bool
  | [] => needle.isEmpty
  | c :: rest => needle.isPrefixOf (c :: rest) || subSearch needle rest

/-- Python substring test `needle in hay`. -/
def inStr (needle hay : String) : Bool := subSearch needle.data hay.data

/-- Python whitespace characters, as recognised by `str.strip()`. -/
def isPySpace (c : Char) : Bool :=
  c = ' ' || c = '\t' || c = '\n' || c = '\r' || c = '\x0b' || c = '\x0c'

/-- Python `str.strip()` with no argument. -/
def pyStrip (s : String) : String :=
  ⟨((s.data.dropWhile isPySpace).reverse.dropWhile isPySpace).reverse⟩

/-- Digit run to a number: helper for the model of Python `int(...)`. -/
def digitsToNat : List Char → Option Nat
  | [] => none
  | l => if l.all Char.isDigit then some (l.foldl (fun n c => n * 10 + (c.toNat - '0'.toNat)) 0) else none

/-- Python `int(s)` on a decimal string: surrounding whitespace is
stripped, an optional sign is allowed, and anything else fails with a
`ValueError` (modelled as `none`). -/
def parseIntPy (s : String) : Option Int :=
  match (pyStrip s).data with
  | '-' :: rest => (digitsToNat rest).map (fun n => -(n : Int))
  | '+' :: rest => (digitsToNat rest).map (fun n => (n : Int))
  | l => (digitsToNat l).map (fun n => (n : Int))

/-- Python `str.lower()` (the inputs of this code base are ASCII, where
`Char.toLower` and Python agree). -/
def pyLower (s : String) : String := ⟨s.data.map Char.toLower⟩

/-- Python `str.isupper()`: at least one cased character, and every
cased character uppercase (ASCII letters are the cased characters that
occur in this code base). -/
def pyIsUpper (s : String) : Bool :=
  s.data.any (fun c => c.isAlpha) && s.data.all (fun c => !c.isAlpha || c.isUpper)

/-- Python `str.islower()`. -/
def pyIsLower (s : String) : Bool :=
  s.data.any (fun c => c.isAlpha) && s.data.all (fun c => !c.isAlpha || c.isLower)

/-- Word character of the `re` module (`\w` / `\b` boundaries). -/
def isWordChar (c : Char) : Bool := c.isAlphanum || c = '_'

/-- Regular-expression `$`: Python's `$` also matches just before one
trailing newline, so matching against `reTail l` with an end-of-list
anchor models `...$` exactly. -/
def reTail (l : List Char) : List Char :=
  match l.getLast? with
  | some c => if c = '\n' then l.dropLast else l
  | none => l

/-! Keyword tables of `DocumentOrchestrator.TEMPLATES` in
`src/orchestrator.py`, in source order. -/

/-- Base keyword list of the `RTI_APPLICATION` template. -/
def RTI_base_keywords : List String := [
  -- A. Core RTI and legal terms
  "rti", "right to information", "right to information act", "information act",
  "rti act 2005", "section 6", "section 7", "section 8", "section 18", "section 19",
  "first appeal", "second appeal", "pio", "cpio", "spio",
  "public information officer", "appellate authority", "faa", "sic", "cic",
  "information commission", "state information commission", "central information commission",
  -- B. Intent verbs
  "want to know", "need to know", "seeking information", "request information",
  "request details", "ask details", "obtain details", "obtain copy", "provide copy",
  "give copy", "furnish details", "supply information", "share information",
  "disclose information", "inspection of records", "certified copy", "attested copy",
  "true copy", "request copy", "need copy", "get copy",
  -- C. Records, documents, files
  "record", "official record", "government record", "department record",
  "document", "official document", "file", "file noting", "file notings",
  "movement of file", "correspondence", "internal correspondence", "office note",
  "register", "ledger", "logbook", "report", "inspection report", "audit report",
  "vigilance report", "enquiry report", "committee report", "government file",
  -- D. Status and action-based RTI
  "status of application", "status of complaint", "action taken", "action taken report",
  "atr", "progress report", "pending status", "delay reason", "timeline",
  "reason for delay", "why not approved", "why rejected", "grounds of rejection",
  "status update", "current status", "application status",
  -- E. Education and university
  "answer sheet", "evaluated answer sheet", "exam answer sheet", "mark sheet",
  "marksheet copy", "marks obtained", "grade sheet", "cutoff marks", "cutoff mark",
  "revaluation result", "moderation marks", "internal marks", "attendance record",
  "exam record", "admission form", "application form", "evaluation criteria",
  "exam rules", "university record", "college record", "academic record",
  "transcript", "degree certificate", "diploma", "enrollment record",
  "registration record", "exam paper", "question paper", "assessment record",
  -- F. Land, revenue, property
  "7/12 extract", "satbara", "property card", "mutation entry", "ferfar",
  "record of rights", "land record", "survey number", "gat number", "cts number",
  "measurement record", "demarcation record", "land acquisition file",
  "award copy", "compensation details", "ownership record", "title record",
  "property document", "registry copy", "sale deed copy",
  -- G. Police, complaint, FIR
  "fir copy", "complaint status", "police complaint", "diary entry", "nc complaint",
  "case diary", "chargesheet status", "investigation status", "action taken by police",
  "reason for no fir", "police record", "station diary",
  -- H. Government schemes, tenders, funds
  "tender document", "bid details", "contract copy", "work order",
  "utilization certificate", "fund allocation", "fund release", "scheme guidelines",
  "beneficiary list", "selection criteria", "contractor details", "payment details",
  "bill copy", "voucher copy", "tender notice", "quotation", "proposal",
  -- I. Service and employment
  "service record", "appointment order", "joining report", "promotion details",
  "transfer order", "posting order", "salary details", "pay scale", "pay slip",
  "arrears calculation", "pension record", "gratuity details", "service book",
  "employment record", "appointment letter", "increment details",
  -- J. Transparency and accountability language
  "transparency", "accountability", "public interest", "public money",
  "taxpayer money", "misuse of funds", "irregularities", "procedure followed",
  "rule followed", "compliance report", "disclosure", "public authority",
  -- Additional high-value terms
  "government information", "public sector", "municipality", "panchayat",
  "ministry", "department", "government department", "public office",
  "government office", "authority information", "official information",
  "copy of document", "information sought", "details requested"]

/-- Negative keyword list of the `RTI_APPLICATION` template. -/
def RTI_negative_keywords : List String := [
  "court affidavit", "sworn before", "notarize", "notary", "deponent",
  "solemnly swear", "penalty of perjury", "court case affidavit",
  "file in court", "submit to court", "legal proceedings affidavit",
  "my name is", "i hereby declare", "i solemnly"]

/-- Base keyword list of the `AFFIDAVIT` template. -/
def AFFIDAVIT_base_keywords : List String := [
  -- A. Core affidavit language
  "affidavit", "sworn affidavit", "self affidavit", "sworn statement",
  "self declaration", "declaration", "undertaking", "solemnly declare",
  "hereby declare", "affirm", "swear", "oath", "deponent", "affiant",
  "solemn affirmation", "sworn before", "sworn testimony",
  -- B. Identity and personal status
  "my name is", "name correction", "name mismatch", "alias", "also known as",
  "address proof", "residential address", "current address", "permanent address",
  "identity proof", "proof of identity", "verify my identity", "confirm my name",
  "proof of residence", "proof of address",
  -- C. Civil facts
  "date of birth", "dob correction", "age proof", "nationality declaration",
  "citizenship declaration", "religion declaration", "marital status",
  "single status", "unmarried", "married", "divorced", "widow", "widower",
  "birth date affidavit", "age declaration", "status declaration",
  -- D. Income, employment, dependency
  "income affidavit", "income declaration", "annual income", "below poverty line",
  "bpl declaration", "non creamy layer", "dependent on parents", "family income",
  "unemployed", "not employed", "self employed declaration", "student declaration",
  "financially dependent", "income certificate affidavit", "poverty affidavit",
  -- E. Loss, damage, non-availability
  "lost document", "lost certificate", "misplaced document", "damage of document",
  "not traceable", "document destroyed", "fir for loss", "loss declaration",
  "certificate lost", "lost my certificate", "document missing",
  "cannot find document", "destroyed document",
  -- F. Education-related affidavits
  "gap affidavit", "education gap", "year gap", "bonafide declaration",
  "character affidavit", "conduct affidavit", "anti ragging affidavit",
  "study gap", "break in education", "gap certificate affidavit",
  "character certificate affidavit",
  -- G. Legal heir and family
  "legal heir affidavit", "surviving member", "family tree", "relationship proof",
  "father name", "mother name", "guardian declaration", "next of kin",
  "heir certificate", "succession affidavit", "family member affidavit",
  "parent details", "relationship declaration",
  -- H. Passport, visa, immigration
  "passport affidavit", "annexure e", "annexure f", "no objection affidavit",
  "noc affidavit", "address verification", "identity verification",
  "passport application affidavit", "visa affidavit", "immigration affidavit",
  "police verification affidavit", "noc for passport",
  -- I. Court and legal filing
  "filed before court", "submitted to court", "court affidavit",
  "judicial proceeding", "legal proceeding", "case affidavit", "petition affidavit",
  "court filing", "legal filing", "affidavit for court", "submit affidavit",
  "file affidavit", "court submission", "legal matter affidavit",
  "case filing", "petition filing",
  -- J. Integrity and truth statements
  "true and correct", "best of my knowledge", "nothing concealed",
  "no criminal record", "no pending case", "not involved in offence",
  "truthfully declare", "honestly state", "verify facts", "certify truth",
  "confirm authenticity", "guarantee accuracy",
  -- K. Purpose-specific terms
  "testimony", "evidence", "witness", "statement of facts", "legal document",
  "notarize", "notary", "attestation", "certified statement",
  -- L. Common affidavit scenarios
  "name change", "change of name", "surname change", "income proof",
  "relationship certificate", "birth certificate affidavit",
  "death certificate affidavit", "marriage certificate affidavit",
  -- M. Court-related scenarios
  "criminal case", "civil case", "family court", "divorce", "custody",
  "property dispute", "inheritance", "will", "succession", "litigation",
  "lawsuit", "tribunal", "hearing", "judge", "magistrate", "attorney", "lawyer",
  -- N. Administrative scenarios
  "visa application", "immigration", "legal heir certificate",
  "verification affidavit", "self certification",
  -- O. Verification terms
  "verify", "verification", "certified", "authentic", "genuine",
  "true statement", "correct statement", "accurate statement",
  -- P. Edge case, high affidavit signal
  "proof that i am", "certificate that i am", "government proof of my statement",
  "official confirmation of my claim", "declare officially", "confirm officially",
  "legally certify my statement", "sworn proof", "legal proof of my identity",
  "official proof of", "certify that i", "confirm that i", "declare that i",
  "state that i", "affirm that i", "testify that i"]

/-- Negative keyword list of the `AFFIDAVIT` template. -/
def AFFIDAVIT_negative_keywords : List String := [
  "government record", "government file", "public authority record",
  "rti application", "information commission", "pio", "cpio",
  "right to information", "seeking information from government",
  "government information", "public information officer"]

/-- Edge-case keyword list of `analyze_requirements`. -/
def edge_case_keywords : List String := [
  "proof that i am", "proof that i", "certificate that i am", "certificate that i",
  "declare that i", "state that i", "affirm that i", "certify that i",
  "confirm that i", "testify that i", "my name is", "i hereby",
  "i solemnly", "proof of my", "officially confirm", "officially declare"]

/-! Keyword expansion (`DocumentOrchestrator._expand_keywords`). The
source builds a Python `set` containing the base keywords and their
variants; only membership in the result is ever used downstream (each
keyword is counted at most once by `sum(1 for kw in ... if ...)`), so
the set is represented as a duplicate-free list: the insertion sequence
with every repeated element dropped. -/

/-- Drop every element already seen, keeping first occurrences. -/
def dedupAux (seen : List String) : List String → List String
  | [] => []
  | x :: xs => if seen.contains x then dedupAux seen xs else x :: dedupAux (x :: seen) xs

/-- Python `keyword.replace(' ', '-')`. -/
def hyphenated (kw : String) : String :=
  ⟨kw.data.map (fun c => if c = ' ' then '-' else c)⟩

/-- Python `keyword.replace(' ', '')`. -/
def concatenated (kw : String) : String :=
  ⟨kw.data.filter (fun c => c ≠ ' ')⟩

/-- Python `keyword.endswith('s')`. -/
def endsWithS (kw : String) : Bool :=
  match kw.data.getLast? with
  | some c => c = 's'
  | none => false

/-- Variants one keyword contributes beyond itself: singular/plural
toggling (strip a trailing `s` from long words, otherwise append one),
and hyphenated plus concatenated forms of multi-word phrases. -/
def keywordVariants (kw : String) : List String :=
  (if endsWithS kw && kw.data.length > 3 then [⟨kw.data.dropLast⟩]
   else if !endsWithS kw then [⟨kw.data ++ ['s']⟩]
   else [])
  ++ (if kw.data.contains ' ' then [hyphenated kw, concatenated kw] else [])

/-- Insertion sequence of `_expand_keywords`: the base keywords
followed by the variants each contributes. -/
def rawExpansion (base : List String) : List String :=
  base ++ base.flatMap keywordVariants

/-- `_expand_keywords`: the set of base keywords and their variants. -/
def expandKeywords (base : List String) : List String :=
  dedupAux [] (rawExpansion base)

/-- Expanded keyword set of the RTI template (`TEMPLATES[...]["keywords"]`). -/
def RTI_keywords : List String := expandKeywords RTI_base_keywords

/-- Expanded keyword set of the affidavit template. -/
def AFFIDAVIT_keywords : List String := expandKeywords AFFIDAVIT_base_keywords

/-! Scoring (`analyze_requirements`, lines 417-448). -/

/-- Number of keywords of the list that occur in the lower-cased text:
`sum(1 for kw in keywords if kw in desc_lower)`. -/
def countMatches (keywords : List String) (descLower : String) : Nat :=
  keywords.foldl (fun n kw => if inStr kw descLower then n + 1 else n) 0

/-- Edge-case boost: 50 per edge-case keyword present in the text. -/
def edgeCaseBoost (descLower : String) : Int :=
  edge_case_keywords.foldl (fun b kw => if inStr kw descLower then b + 50 else b) 0

/-- Per-type scores of one classification run (`scores` dict: keys
`RTI_APPLICATION` and `AFFIDAVIT`, in that insertion order). -/
structure Scores where
  rti : Int
  aff : Int
deriving DecidableEq, Repr

/-- Score computation of `analyze_requirements`: weighted positive and
negative keyword counts, the edge-case boost added to the affidavit
score, and a final clamp at zero. -/
def computeScores (descLower : String) : Scores :=
  let edgeBoost := edgeCaseBoost descLower
  let rtiRaw : Int :=
    (countMatches RTI_keywords descLower : Int) * 10
      - (countMatches RTI_negative_keywords descLower : Int) * 20
  let affRaw : Int :=
    (countMatches AFFIDAVIT_keywords descLower : Int) * 10
      - (countMatches AFFIDAVIT_negative_keywords descLower : Int) * 20
      + edgeBoost
  ⟨max 0 rtiRaw, max 0 affRaw⟩

/-- Confidence bucket table of `analyze_requirements` (lines 465-476). -/
def confidenceFor (maxScore scoreGap : Int) : Int :=
  if maxScore ≥ 50 ∨ scoreGap ≥ 30 then 98
  else if maxScore ≥ 30 ∧ scoreGap ≥ 15 then 95
  else if maxScore ≥ 20 ∧ scoreGap ≥ 10 then 85
  else if maxScore ≥ 15 ∧ scoreGap ≥ 5 then 75
  else if maxScore ≥ 10 then 65
  else 50

/-! Clarification question bank
(`DocumentOrchestrator.CLARIFICATION_QUESTIONS`) and question selection
(`_select_clarification_questions`). -/

/-- One entry of the question bank: its dict key, its `category` value,
its trigger keywords and its question texts, in source order. -/
structure QCat where
  key : String
  category : String
  trigger_keywords : List String
  questions : List String
deriving DecidableEq, Repr

/-- Question-bank entry `rti_information_vs_declaration`. -/
def catRtiInformationVsDeclaration : QCat :=
  ⟨"rti_information_vs_declaration", "RTI",
   ["information", "record", "document", "copy", "file", "data"],
   ["Are you asking for existing records held by a government office?",
    "Do you want copies of documents already available with an authority?",
    "Are you trying to know something, not declare something?",
    "Is the information already created by a government department?"]⟩

/-- Question-bank entry `rti_authority`. -/
def catRtiAuthority : QCat :=
  ⟨"rti_authority", "RTI",
   ["government", "office", "department", "authority", "ministry"],
   ["Which government department holds this information?",
    "Is the authority a public university or government college?",
    "Is the authority a municipal corporation or panchayat?",
    "Is the information held by a police station or revenue office?"]⟩

/-- Question-bank entry `rti_document_type`. -/
def catRtiDocumentType : QCat :=
  ⟨"rti_document_type", "RTI",
   ["exam", "answer", "marksheet", "land", "tender", "fir"],
   ["Are you asking for answer sheets or exam records?",
    "Are you requesting land records or property documents?",
    "Are you seeking service or salary records?",
    "Are you requesting tender or contract documents?"]⟩

/-- Question-bank entry `rti_transparency`. -/
def catRtiTransparency : QCat :=
  ⟨"rti_transparency", "RTI",
   ["status", "why", "reason", "action", "delay"],
   ["Are you asking why or how a decision was taken?",
    "Are you seeking file movement or file notings?",
    "Are you asking for status, action taken, or reasons?",
    "Is this about transparency or accountability?"]⟩

/-- Question-bank entry `affidavit_declaration`. -/
def catAffidavitDeclaration : QCat :=
  ⟨"affidavit_declaration", "AFFIDAVIT",
   ["declare", "state", "affirm", "swear", "my", "i am"],
   ["Are you trying to declare a personal fact?",
    "Are you stating something as true to your knowledge?",
    "Do you need to affirm or swear a statement?",
    "Are you declaring information about yourself?"]⟩

/-- Question-bank entry `affidavit_identity`. -/
def catAffidavitIdentity : QCat :=
  ⟨"affidavit_identity", "AFFIDAVIT",
   ["name", "address", "identity", "proof", "dob", "birth"],
   ["Is this about name correction or identity proof?",
    "Is this about address proof or residence verification?",
    "Is this about date of birth correction?",
    "Is this about relationship proof or legal heir status?"]⟩

/-- Question-bank entry `affidavit_income`. -/
def catAffidavitIncome : QCat :=
  ⟨"affidavit_income", "AFFIDAVIT",
   ["income", "salary", "bpl", "earning", "financial", "poor"],
   ["Are you declaring your income or financial status?",
    "Is this for scholarship or fee concession?",
    "Are you declaring unemployment or dependency?",
    "Is this related to BPL or EWS status?"]⟩

/-- Question-bank entry `affidavit_loss`. -/
def catAffidavitLoss : QCat :=
  ⟨"affidavit_loss", "AFFIDAVIT",
   ["lost", "damage", "missing", "destroyed", "misplace"],
   ["Have you lost a document?",
    "Is the original document damaged or destroyed?",
    "Are you declaring loss for reissue or duplicate?",
    "Have you filed an FIR for the loss?"]⟩

/-- Question-bank entry `affidavit_court`. -/
def catAffidavitCourt : QCat :=
  ⟨"affidavit_court", "AFFIDAVIT",
   ["court", "case", "judge", "legal", "petition"],
   ["Will this document be submitted to a court?",
    "Is this part of a legal proceeding?",
    "Is this required by a judge or magistrate?",
    "Is this a court-mandated affidavit?"]⟩

/-- Question-bank entry `affidavit_education`. -/
def catAffidavitEducation : QCat :=
  ⟨"affidavit_education", "AFFIDAVIT",
   ["gap", "year", "anti-ragging", "bonafide", "character"],
   ["Is this about education gap or year gap?",
    "Is this for bonafide or character certificate?",
    "Is this an anti-ragging affidavit?",
    "Is this for college admission?"]⟩

/-- Question-bank entry `confusion_resolution`. -/
def catConfusionResolution : QCat :=
  ⟨"confusion_resolution", "BOTH",
   ["proof", "certificate", "verify", "confirm"],
   ["Are you trying to change a record or just get a copy?",
    "Do you want the government to accept your statement?",
    "Are you trying to prove something about yourself?",
    "Are you asking the authority to answer questions?"]⟩

/-- The question bank, in source (dict insertion) order. -/
def CLARIFICATION_QUESTIONS : List QCat :=
  [catRtiInformationVsDeclaration, catRtiAuthority, catRtiDocumentType,
   catRtiTransparency, catAffidavitDeclaration, catAffidavitIdentity,
   catAffidavitIncome, catAffidavitLoss, catAffidavitCourt,
   catAffidavitEducation, catConfusionResolution]

/-- One selected question of `_select_clarification_questions`. -/
structure QItem where
  text : String
  leads_to : String
  category : String
deriving DecidableEq, Repr

/-- The primary category favoured by the current scores. -/
def primaryCategory (scores : Scores) : String :=
  if scores.rti > scores.aff then "RTI"
  else if scores.aff > scores.rti then "AFFIDAVIT"
  else "BOTH"

/-- One step of the relevant-category pass: a category whose triggers
match is put at the front when its `category` equals the primary one
(or is `BOTH`), appended at the back otherwise. -/
def relevantStep (descLower primary : String) (acc : List QCat) (cat : QCat) : List QCat :=
  if cat.trigger_keywords.any (fun kw => inStr kw descLower) then
    if cat.category = primary ∨ cat.category = "BOTH" then cat :: acc
    else acc ++ [cat]
  else acc

/-- Relevant question categories: one pass over the bank. -/
def relevantCats (descLower : String) (primary : String) : List QCat :=
  CLARIFICATION_QUESTIONS.foldl (relevantStep descLower primary) []

/-- The selected-question record built for one question of a category
(`{"text": ..., "leads_to": ..., "category": ...}`). -/
def mkQItem (primary : String) (cat : QCat) (q : String) : QItem :=
  ⟨q,
   if cat.category = "RTI" then "RTI_APPLICATION"
   else if cat.category = "AFFIDAVIT" then "AFFIDAVIT"
   else primary,
   cat.category⟩

/-- The first two questions a selected category contributes. -/
def catQItems (primary : String) (cat : QCat) : List QItem :=
  (cat.questions.take 2).map (mkQItem primary cat)

/-- `_select_clarification_questions`: pick the first two relevant
categories (falling back to `confusion_resolution` when none is
relevant), take the first two questions of each, and cap at four. -/
def selectClarificationQuestions (description : String) (scores : Scores) : List QItem :=
  let descLower := pyLower description
  let primary := primaryCategory scores
  let cats := relevantCats descLower primary
  let cats := if cats = [] then [catConfusionResolution] else cats
  let maxCategories := min 2 cats.length
  let selectedCats := cats.take maxCategories
  let finalQuestions := selectedCats.foldl (fun acc cat => acc ++ catQItems primary cat) []
  finalQuestions.take 4

/-! Classification (`DocumentOrchestrator.analyze_requirements` and
`_generate_clarification_response`). -/

/-- The two document types of `TEMPLATES`, used as dict keys. -/
inductive DocType where
  | rti
  | affidavit
deriving DecidableEq, Repr

/-- The dict key of a document type. -/
def DocType.key : DocType → String
  | .rti => "RTI_APPLICATION"
  | .affidavit => "AFFIDAVIT"

/-- Template metadata (`name` and `complexity` of `TEMPLATES`). -/
def templateName : DocType → String
  | .rti => "RTI Application"
  | .affidavit => "Affidavit"

/-- Template `complexity` value. -/
def templateComplexity : DocType → Int
  | .rti => 8
  | .affidavit => 7

/-- Score of a document type in a `Scores` record. -/
def getScore (s : Scores) : DocType → Int
  | .rti => s.rti
  | .affidavit => s.aff

/-- Update of a score entry (`scores[primary_doc] = ...`). -/
def setScore (s : Scores) : DocType → Int → Scores
  | .rti, v => { s with rti := v }
  | .affidavit, v => { s with aff := v }

/-- Parsed reply of the optional Groq LLM call
(`_analyze_with_groq`): the fields of the JSON object the service
contract prescribes. `document_type` is one of the two template keys
per that contract; replies that fail to parse are swallowed by the
source's exception handler and are modelled as an absent reply. -/
structure GroqResult where
  document_type : DocType
  confidence : Int
  clarification_needed : Bool
  questions : List String
deriving DecidableEq, Repr

/-- One formatted yes/no option of a clarification question. -/
structure FormattedOption where
  text : String
  leads_to : String
deriving DecidableEq, Repr

/-- One formatted clarification question of
`_generate_clarification_response`. -/
structure FormattedQuestion where
  question : String
  options : List FormattedOption
deriving DecidableEq, Repr

/-- Result dict of `analyze_requirements`: either the success shape
(`status` `success`) or the clarification shape
(`status` `needs_clarification`). -/
inductive ClassifyResult where
  | success (primary_document : String) (document_name : String)
      (confidence : Int) (estimated_complexity : Int) (complexity_score : Int)
      (estimated_time_minutes : Int) (potential_challenges : List String)
      (recommended_approach : String) (score_details : Scores)
  | needs_clarification (confidence : Int) (suggested_document : Option String)
      (questions : List FormattedQuestion) (message : String)
deriving DecidableEq, Repr

/-- The `status` field is `needs_clarification`. -/
def ClassifyResult.isClarification : ClassifyResult → Bool
  | .success _ _ _ _ _ _ _ _ _ => false
  | .needs_clarification _ _ _ _ => true

/-- The `confidence` field of either result shape. -/
def ClassifyResult.confidence : ClassifyResult → Int
  | .success _ _ c _ _ _ _ _ _ => c
  | .needs_clarification c _ _ _ => c

/-- The opposite document key used for the `No` option
(`_generate_clarification_response`, lines 604-609). -/
def oppositeDoc (suggested : Option DocType) : String :=
  match suggested with
  | some .rti => "AFFIDAVIT"
  | some .affidavit => "RTI_APPLICATION"
  | none => "RTI_APPLICATION"

/-- `_generate_clarification_response`: format LLM questions when there
are any, otherwise format the keyword-selected questions, and raise the
reported confidence to at least 55. -/
def generateClarificationResponse (base_confidence : Int)
    (suggested_doc : Option DocType) (description : String) (scores : Scores)
    (llm_questions : Option (List String)) : ClassifyResult :=
  let fromLlm : List FormattedQuestion :=
    match llm_questions with
    | some qs => qs.map (fun qText =>
        ⟨qText,
         [⟨"Yes", ((suggested_doc.map DocType.key).getD "RTI_APPLICATION")⟩,
          ⟨"No", if suggested_doc = some .rti then "AFFIDAVIT" else "RTI_APPLICATION"⟩]⟩)
    | none => []
  let formatted : List FormattedQuestion :=
    if fromLlm = [] then
      (selectClarificationQuestions description scores).map (fun q =>
        ⟨q.text,
         [⟨"Yes", if q.category ≠ "BOTH" then q.leads_to
                  else ((suggested_doc.map DocType.key).getD "RTI_APPLICATION")⟩,
          ⟨"No", oppositeDoc suggested_doc⟩]⟩)
    else fromLlm
  .needs_clarification (max base_confidence 55) (suggested_doc.map DocType.key)
    formatted "I need a bit more information to suggest the right document for you."

/-- Contextual challenge detection of the success path
(`analyze_requirements`, lines 513-518). -/
def detectChallenges (descLower : String) (primaryDoc : DocType) : List String :=
  (if ["urgent", "emergency", "immediate"].any (fun w => inStr w descLower) then
     ["Urgent request - ensure timeline compliance"] else [])
  ++ (if (["court", "legal", "case"].any (fun w => inStr w descLower)) ∧ primaryDoc = .rti then
     ["Legal matter - verify if RTI is appropriate or if Affidavit is needed"] else [])

/-- Canned recommended approach of the success path. -/
def recommendedApproach : DocType → String
  | .rti => "Submit RTI application to the Public Information Officer (PIO) of the relevant authority. Include specific details of information needed, payment proof, and contact details."
  | .affidavit => "Prepare sworn affidavit with clear statement of facts. Get it notarized before submitting to the concerned authority or court."

/-- Tail of `analyze_requirements` after the optional LLM step: request
clarification when the confidence is still below 70, otherwise build the
success result. -/
def finishClassify (description descLower : String) (primaryDoc : DocType)
    (confidence : Int) (scores : Scores) : ClassifyResult :=
  if confidence < 70 then
    generateClarificationResponse confidence (some primaryDoc) description scores none
  else
    .success primaryDoc.key (templateName primaryDoc) confidence
      (templateComplexity primaryDoc)
      (templateComplexity primaryDoc * 10 + 15 + 10)
      15 (detectChallenges descLower primaryDoc) (recommendedApproach primaryDoc)
      scores

/-- `analyze_requirements`. The `groq` parameter models the optional
LLM fallback: `none` covers both absent credentials and any service
failure (which the source swallows before falling back to the keyword
path), `some r` a parsed reply. -/
def classify (groq : Option GroqResult) (description : String) : ClassifyResult :=
  let descLower := pyLower description
  let scores := computeScores descLower
  if scores.rti = 0 ∧ scores.aff = 0 then
    generateClarificationResponse 0 none description scores none
  else
    let primaryDoc : DocType := if scores.aff > scores.rti then .affidavit else .rti
    let maxScore := getScore scores primaryDoc
    let secondHighest := min scores.rti scores.aff
    let scoreGap := maxScore - secondHighest
    let confidence := confidenceFor maxScore scoreGap
    match groq with
    | some r =>
      if confidence < 70 then
        if r.confidence ≥ 80 then
          let primaryDoc := r.document_type
          let confidence := r.confidence
          let scores := setScore scores primaryDoc (max (getScore scores primaryDoc) confidence)
          finishClassify description descLower primaryDoc confidence scores
        else if r.clarification_needed then
          generateClarificationResponse confidence (some primaryDoc) description scores
            (some r.questions)
        else finishClassify description descLower primaryDoc confidence scores
      else finishClassify description descLower primaryDoc confidence scores
    | none => finishClassify description descLower primaryDoc confidence scores

/-! Validator (`SmartLegalValidator` in `src/validation.py`). The
mutable accumulators become an explicit `VState`; the configuration
files and the current date become an explicit read-only `Config`. -/

/-- The four finding accumulators of `SmartLegalValidator`, in their
append order. -/
structure VState where
  errors : List String
  warnings : List String
  blocking_issues : List String
  suggestions : List String
deriving DecidableEq, Repr

/-- Accumulators right after `reset()`. -/
def VState.empty : VState := ⟨[], [], [], []⟩

/-- `self.errors.append(m)`. -/
def addError (m : String) (st : VState) : VState :=
  { st with errors := st.errors ++ [m] }

/-- `self.warnings.append(m)`. -/
def addWarning (m : String) (st : VState) : VState :=
  { st with warnings := st.warnings ++ [m] }

/-- `self.blocking_issues.append(m)`. -/
def addBlocking (m : String) (st : VState) : VState :=
  { st with blocking_issues := st.blocking_issues ++ [m] }

/-- `self.suggestions.append(m)`. -/
def addSuggestion (m : String) (st : VState) : VState :=
  { st with suggestions := st.suggestions ++ [m] }

/-- `affidavit_rules` of one jurisdiction profile. -/
structure AffidavitRules where
  guardian_age_limit : Option Int
  stamp_mandatory : Bool
  stamp_paper_value : Option Int
deriving DecidableEq, Repr

/-- `rti_rules` of one jurisdiction profile. -/
structure RtiRules where
  bpl_exemption : Bool
deriving DecidableEq, Repr

/-- One entry of `jurisdiction_profiles.json`. -/
structure JurisdictionProfile where
  rti_rules : RtiRules
  affidavit_rules : AffidavitRules
deriving DecidableEq, Repr

/-- One entry of the `categories` table of `rti_categories.json`. -/
structure CatInfo where
  name : Option String
  section_8_exempt : Bool
  exemption_reference : Option String
  block_generation : Bool
  block_message : Option String
deriving DecidableEq, Repr

/-- The `rti_categories.json` tables used by the validator. -/
structure RtiCategoriesData where
  auto_detect_keywords : List (String × List String)
  categories : List (String × CatInfo)
deriving DecidableEq, Repr

/-- Read-only validator environment: the loaded jurisdiction profiles
(an empty map when loading failed), the loaded RTI category tables
(`none` models the falsy empty dict of a failed load), and the current
date as a day ordinal (`datetime.now()`; a date is future exactly when
its ordinal exceeds `todayOrd`, and `days_old` is the ordinal
difference, which matches `timedelta.days` for any intraday time). -/
structure Config where
  jurisdictions : List (String × JurisdictionProfile)
  rti_categories : Option RtiCategoriesData
  todayOrd : Nat
deriving DecidableEq, Repr

/-- Dict lookup in an association list (first binding wins). -/
def alist.lookup {α : Type} (k : String) : List (String × α) → Option α
  | [] => none
  | (k2, v) :: rest => if k2 = k then some v else alist.lookup k rest

/-- `state in self.jurisdictions`. -/
def inJurisdictions (cfg : Config) (state : String) : Bool :=
  (alist.lookup state cfg.jurisdictions).isSome

/-- Fixed list of valid Indian states (`INDIAN_STATES`). -/
def INDIAN_STATES : List String := [
  "Andhra Pradesh", "Arunachal Pradesh", "Assam", "Bihar", "Chhattisgarh",
  "Goa", "Gujarat", "Haryana", "Himachal Pradesh", "Jharkhand", "Karnataka",
  "Kerala", "Madhya Pradesh", "Maharashtra", "Manipur", "Meghalaya", "Mizoram",
  "Nagaland", "Odisha", "Punjab", "Rajasthan", "Sikkim", "Tamil Nadu",
  "Telangana", "Tripura", "Uttar Pradesh", "Uttarakhand", "West Bengal",
  "Delhi", "Jammu and Kashmir", "Ladakh"]

/-- `_validate_name`: length, character-class and capitalisation checks.
The regular expression is a full anchored match of letters, whitespace
and periods (`^[A-Za-z\s\.]+$`; a trailing newline satisfies `$` but is
itself a `\s` character, so plain end-anchoring is exact here). -/
def validateName (name fieldName : String) (st : VState) : VState :=
  let st := if name.length < 3 then
      addError ("❌ " ++ fieldName ++ " must be at least 3 characters") st
    else st
  let st := if !(name.data ≠ [] && name.data.all (fun c => c.isAlpha || isPySpace c || c = '.')) then
      addWarning ("⚠️  " ++ fieldName ++ " contains special characters. Legal documents typically use only letters") st
    else st
  if pyIsUpper name || pyIsLower name then
    addSuggestion ("💡 Use proper capitalization for " ++ fieldName ++ " (e.g., \x27Rajesh Kumar\x27)") st
  else st

/-- Six consecutive digits starting here, returning the rest. -/
def sixDigitsSplit : List Char → Option (List Char)
  | a :: b :: c :: d :: e :: f :: rest =>
    if [a, b, c, d, e, f].all Char.isDigit then some rest else none
  | _ => none

/-- A `\b` boundary against an adjacent character (or the text edge). -/
def boundaryOk : Option Char → Bool
  | none => true
  | some c => !isWordChar c

/-- Scan for `\b\d{6}\b` (the `re.search` of `_validate_address`). -/
def hasPinAux (prev : Option Char) : List Char → Bool
  | [] => false
  | c :: rest =>
    (boundaryOk prev &&
      (match sixDigitsSplit (c :: rest) with
       | some after => boundaryOk after.head?
       | none => false))
    || hasPinAux (some c) rest

/-- `re.search(r'\b\d{6}\b', address)` is a match. -/
def hasPin (s : String) : Bool := hasPinAux none s.data

/-- `_validate_address`: length heuristics and PIN-code presence. -/
def validateAddress (address : String) (st : VState) : VState :=
  let st := if address.length < 15 then
      addWarning "⚠️  Address seems very short. Provide complete address including house/flat number, street, city, and PIN code" st
    else st
  let st := if !hasPin address then
      addWarning "⚠️  Address should include 6-digit PIN code" st
    else st
  if address.length < 30 then
    addSuggestion "💡 Recommended address format: \x27House No., Street/Area, City, State - PIN\x27" st
  else st

/-- `_validate_state_jurisdiction`: state-name membership and the
limited-jurisdiction-data warning. -/
def validateStateJurisdiction (cfg : Config) (state : String) (st : VState) : VState :=
  if !INDIAN_STATES.contains state then
    addSuggestion "💡 Did you mean one of: Maharashtra, Karnataka, Delhi, Gujarat, Tamil Nadu?"
      (addError ("❌ \x27" ++ state ++ "\x27 is not a valid Indian state/UT") st)
  else if !inJurisdictions cfg state then
    addSuggestion "💡 For best results, use: Maharashtra, Karnataka, Delhi, Gujarat, Tamil Nadu, UP, West Bengal, or Rajasthan"
      (addWarning ("⚠️  Limited jurisdiction data for " ++ state ++ ". Using default rules") st)
  else st

/-- `_validate_authority_name`. -/
def validateAuthorityName (authority : String) (st : VState) : VState :=
  let st := if authority.length < 5 then
      addError "❌ Authority/Department name is too short" st
    else st
  if ["Corp", "Dept", "Off"].any (fun abbr => inStr abbr authority) then
    addSuggestion "💡 Use full authority name (e.g., \x27Municipal Corporation\x27 not \x27Muncipal Corp\x27)" st
  else st

/-- `_validate_information_request` (its `state` argument is unused in
the source body and is dropped here). -/
def validateInformationRequest (infoText : String) (st : VState) : VState :=
  let infoLength := (pyStrip infoText).length
  let st := if infoLength < 30 then
      addSuggestion "💡 Include: specific documents, time periods, file numbers, departments"
        (addWarning "⚠️  Information request is very brief. Be more specific for better results" st)
    else st
  let st := if infoLength > 3000 then
      addWarning "⚠️  Request is very long. Consider breaking into multiple applications" st
    else st
  let infoLower := pyLower infoText
  let st := if !(["copy of", "details of", "list of", "information regarding"].any
      (fun marker => inStr marker infoLower)) then
      addSuggestion "💡 Start with specific phrases: \x27Copy of...\x27, \x27Details of...\x27, \x27List of...\x27" st
    else st
  let st := if !(["year", "month", "period", "from", "to", "during",
        "2020", "2021", "2022", "2023", "2024", "2025"].any
      (fun kw => inStr kw infoLower)) then
      addSuggestion "💡 Example: \x27from January 2023 to December 2023\x27 or \x27for financial year 2023-24\x27"
        (addWarning "⚠️  No time period specified. Specify date range for better clarity" st)
    else st
  if infoText.data.count '?' > 2 then
    addSuggestion "💡 Instead of \x27Why was X done?\x27, request \x27Copy of file noting explaining decision on X\x27"
      (addWarning "⚠️  RTI is for information/documents, not for answering questions" st)
  else st

/-- Full match of `^[6-9]\d{9}$` on a character list. -/
def mobileMatch (l : List Char) : Bool :=
  match reTail l with
  | c :: rest => ('6' ≤ c && c ≤ '9') && rest.length = 9 && rest.all Char.isDigit
  | [] => false

/-- Character class `[a-zA-Z0-9._%+-]` of the email pattern. -/
def emailLocalChar (c : Char) : Bool :=
  c.isAlphanum || c = '.' || c = '_' || c = '%' || c = '+' || c = '-'

/-- Character class `[a-zA-Z0-9.-]` of the email pattern. -/
def emailDomainChar (c : Char) : Bool :=
  c.isAlphanum || c = '.' || c = '-'

/-- Full match of `^[a-zA-Z0-9._%+-]+@[a-zA-Z0-9.-]+\.[a-zA-Z]{2,}$`:
the local part runs to the first `@` (the class excludes `@`), and the
top-level-domain part runs from the last `.` (the class excludes `.`),
so the decomposition is forced. -/
def emailMatch (l : List Char) : Bool :=
  let l := reTail l
  let localPart := l.takeWhile (fun c => c ≠ '@')
  match l.drop localPart.length with
  | '@' :: domainAll =>
    let tldRev := domainAll.reverse.takeWhile (fun c => c ≠ '.')
    (match domainAll.reverse.drop tldRev.length with
     | '.' :: bodyRev =>
       localPart ≠ [] && localPart.all emailLocalChar
       && bodyRev ≠ [] && bodyRev.all emailDomainChar
       && tldRev.length ≥ 2 && tldRev.all Char.isAlpha
     | _ => false)
  | _ => false

/-- `_validate_contact`. -/
def validateContact (contact : String) (st : VState) : VState :=
  let contact := pyStrip contact
  if !(mobileMatch contact.data || emailMatch contact.data) then
    addWarning "⚠️  Contact should be valid 10-digit mobile (starting with 6-9) or email" st
  else st

/-- Truthiness of an optional string field (`user_data.get(f)`). -/
def strTruthy (o : Option String) : Bool :=
  match o with
  | some s => s ≠ ""
  | none => false

/-- Structured RTI form input (`user_data` of
`validate_rti_application`). Absent dict keys are `none`. -/
structure RtiData where
  name : Option String
  address : Option String
  state : Option String
  authority : Option String
  pio_address : Option String
  info : Option String
  contact : Option String
  bpl : Bool
  bpl_card_number : Option String
  application_date : Option String
deriving DecidableEq, Repr

/-- `_validate_bpl_details`. -/
def validateBplDetails (cfg : Config) (d : RtiData) (st : VState) : VState :=
  let st := if !strTruthy d.bpl_card_number then
      addSuggestion "💡 Add BPL card number to avoid fee payment issues"
        (addWarning "⚠️  BPL applicants should provide BPL card number for verification" st)
    else st
  match d.state with
  | some state =>
    if state ≠ "" then
      match alist.lookup state cfg.jurisdictions with
      | some profile =>
        if !profile.rti_rules.bpl_exemption then
          addWarning ("⚠️  " ++ state ++ " may not offer BPL fee exemption. Verify with local rules") st
        else st
      | none => st
    else st
  | none => st

/-- Category scan step of `_check_section_8_compliance` for one
category: the first listed keyword found in the text decides the
category (the inner `break`), and only `section_8_exempt` categories
are recorded. -/
def scanCategory (cats : List (String × CatInfo)) (infoLower : String)
    (category : String) (keywords : List String)
    (acc : List (String × String × String) × VState) :
    List (String × String × String) × VState :=
  match keywords.find? (fun kw => inStr (pyLower kw) infoLower) with
  | some kw =>
    let catInfo := (alist.lookup category cats).getD ⟨none, false, none, false, none⟩
    if catInfo.section_8_exempt then
      let issue := (catInfo.name.getD category,
                    catInfo.exemption_reference.getD "Section 8", kw)
      let st := if catInfo.block_generation then
          addBlocking ("🚫 Request likely to be REJECTED: "
            ++ (catInfo.block_message.getD "Highly exempt category")) acc.2
        else acc.2
      (acc.1 ++ [issue], st)
    else acc
  | none => acc

/-- `_check_section_8_compliance`. -/
def checkSection8Compliance (cfg : Config) (infoText : String) (st : VState) : VState :=
  match cfg.rti_categories with
  | none => st
  | some data =>
    let infoLower := pyLower infoText
    let scanned := data.auto_detect_keywords.foldl
      (fun acc p => scanCategory data.categories infoLower p.1 p.2 acc) ([], st)
    let detected := scanned.1
    let st := scanned.2
    if detected ≠ [] then
      let st := addWarning ("⚠️  Detected " ++ toString detected.length
        ++ " potential exemption(s) under RTI Act:") st
      let st := detected.foldl (fun st issue =>
        addWarning ("   • " ++ issue.1 ++ " (" ++ issue.2.1 ++ ") - keyword: \x27"
          ++ issue.2.2 ++ "\x27") st) st
      addSuggestion "💡 Review Section 8 & 9 of RTI Act. Consider narrowing request to non-exempt aspects" st
    else st

/-- Leap year of the proleptic Gregorian calendar (`datetime`). -/
def isLeap (y : Nat) : Bool := y % 4 = 0 && (y % 100 ≠ 0 || y % 400 = 0)

/-- Days in a month. -/
def daysInMonth (y m : Nat) : Nat :=
  if m = 2 then (if isLeap y then 29 else 28)
  else if [4, 6, 9, 11].contains m then 30
  else 31

/-- Days before the given month in the given year. -/
def daysBeforeMonth (y m : Nat) : Nat :=
  (List.range (m - 1)).foldl (fun acc i => acc + daysInMonth y (i + 1)) 0

/-- Proleptic Gregorian day ordinal (`datetime.toordinal`). -/
def rataDie (y m d : Nat) : Nat :=
  365 * (y - 1) + (y - 1) / 4 - (y - 1) / 100 + (y - 1) / 400 + daysBeforeMonth y m + d

/-- `datetime.strptime(s, '%Y-%m-%d')`: dash-separated digit runs of
length 1-4, 1-2 and 1-2, with calendar validation, returned as a day
ordinal. -/
def parseDateOrd (s : String) : Option Nat :=
  match s.splitOn "-" with
  | [ys, ms, ds] =>
    match digitsToNat ys.data, digitsToNat ms.data, digitsToNat ds.data with
    | some y, some m, some d =>
      if ys.data.length ≤ 4 && ms.data.length ≤ 2 && ds.data.length ≤ 2
         && 1 ≤ y && 1 ≤ m && m ≤ 12 && 1 ≤ d && d ≤ daysInMonth y m then
        some (rataDie y m d)
      else none
    | _, _, _ => none
  | _ => none

/-- `_validate_date_consistency`: reject future dates, warn on stale
ones (`(today - app_date).days > 90`). -/
def validateDateConsistency (cfg : Config) (applicationDate : String) (st : VState) : VState :=
  match parseDateOrd applicationDate with
  | none => addError "❌ Invalid date format. Use YYYY-MM-DD" st
  | some appOrd =>
    let st := if appOrd > cfg.todayOrd then
        addError "❌ Application date cannot be in the future" st
      else st
    let daysOld : Int := (cfg.todayOrd : Int) - (appOrd : Int)
    if daysOld > 90 then
      addWarning ("⚠️  Application date is " ++ toString daysOld
        ++ " days old. RTI must be filed within reasonable time") st
    else st

/-- Guardian age threshold for a state
(`jurisdictions[state]['affidavit_rules'].get('guardian_age_limit', 18)`,
18 when the state has no profile). -/
def guardianLimitOf (cfg : Config) (state : String) : Int :=
  match alist.lookup state cfg.jurisdictions with
  | some profile => profile.affidavit_rules.guardian_age_limit.getD 18
  | none => 18

/-- `_validate_age_for_affidavit`: returns the updated accumulators,
whether the age is valid, and whether a guardian is needed. -/
def validateAgeForAffidavit (cfg : Config) (age : String) (state : String)
    (st : VState) : VState × Bool × Bool :=
  match parseIntPy age with
  | none => (addError "❌ Age must be a valid number" st, false, false)
  | some ageInt =>
    if ageInt < 1 ∨ ageInt > 120 then
      (addError "❌ Invalid age. Must be between 1 and 120" st, false, false)
    else
      let limit := guardianLimitOf cfg state
      let guardianNeeded := ageInt < limit
      let st := if guardianNeeded then
          addSuggestion "💡 Provide guardian\x27s name, age, and father\x27s name"
            (addWarning ("⚠️  Deponent is minor (age " ++ toString ageInt
              ++ "). Guardian details are REQUIRED") st)
        else st
      (st, true, guardianNeeded)

/-- Per-statement checks of `_validate_affidavit_statements` for the
1-based statement `i`. -/
def validateOneStatement (st : VState) (p : Nat × String) : VState :=
  let i := p.1
  let statement := p.2
  if pyStrip statement = "" then
    addError ("❌ Statement " ++ toString i ++ " is empty") st
  else
    let st := if statement.length < 10 then
        addWarning ("⚠️  Statement " ++ toString i ++ " is very brief. Be more specific") st
      else st
    let stmtLower := pyLower statement
    let st := if ["think", "believe", "feel", "probably", "maybe", "might", "could be"].any
        (fun w => inStr w stmtLower) then
        addSuggestion ("💡 Statement " ++ toString i ++ ": Replace opinions with factual statements")
          (addWarning ("⚠️  Statement " ++ toString i
            ++ " contains opinion words. Affidavits should state facts only") st)
      else st
    let st := if ["i heard", "someone told", "it is said", "people say", "rumor"].any
        (fun phrase => inStr phrase stmtLower) then
        addWarning ("⚠️  Statement " ++ toString i
          ++ " may be based on hearsay. Use direct knowledge only") st
      else st
    if !("that".data.isPrefixOf (pyStrip stmtLower).data) then
      addSuggestion ("💡 Statement " ++ toString i
        ++ ": Should start with \x27that\x27 as per legal format") st
    else st

/-- `_validate_affidavit_statements`. -/
def validateAffidavitStatements (statements : List String) (st : VState) : VState :=
  if statements = [] then
    addError "❌ Affidavit must contain at least one statement" st
  else
    let st := if statements.length > 30 then
        addWarning "⚠️  Affidavit has many statements. Consider creating multiple affidavits if unrelated" st
      else st
    (statements.enumFrom 1).foldl validateOneStatement st

/-- `_check_stamp_requirements`. -/
def checkStampRequirements (cfg : Config) (state : String) (st : VState) : VState :=
  match alist.lookup state cfg.jurisdictions with
  | some profile =>
    if profile.affidavit_rules.stamp_mandatory then
      addSuggestion ("💡 " ++ state ++ " requires affidavit on stamp paper of Rs. "
        ++ toString (profile.affidavit_rules.stamp_paper_value.getD 0)
        ++ "/-. This will be noted in the generated document") st
    else st
  | none => st

/-- Missing-or-blank test of the RTI required-field loop
(`not user_data.get(field) or not str(user_data[field]).strip()`). -/
def missingOrBlank (o : Option String) : Bool :=
  match o with
  | none => true
  | some s => pyStrip s = ""

/-- The RTI required fields with their values, in source order. -/
def rtiRequiredFields (d : RtiData) : List (String × Option String) :=
  [("name", d.name), ("address", d.address), ("state", d.state),
   ("authority", d.authority), ("pio_address", d.pio_address), ("info", d.info)]

/-- The missing-required-field message for a field name. -/
def missingFieldMsg (field : String) : String :=
  "❌ Missing required field: " ++ field

/-- Required-field loop: one missing-field error per failing field. -/
def missingFieldErrors (checks : List (String × Bool)) (st : VState) : VState :=
  checks.foldl (fun st p =>
    if p.2 then addError (missingFieldMsg p.1) st else st) st

/-- Checks of `validate_rti_application` after the required-field gate,
in source order. -/
def rtiMainChecks (cfg : Config) (d : RtiData) (st : VState) : VState :=
  let st := validateName (d.name.getD "") "Applicant Name" st
  let st := validateAddress (d.address.getD "") st
  let st := validateStateJurisdiction cfg (d.state.getD "") st
  let st := validateAuthorityName (d.authority.getD "") st
  let st := validateInformationRequest (d.info.getD "") st
  let st := if strTruthy d.contact then validateContact (d.contact.getD "") st else st
  let st := if d.bpl then validateBplDetails cfg d st else st
  let st := checkSection8Compliance cfg (d.info.getD "") st
  if strTruthy d.application_date then
    validateDateConsistency cfg (d.application_date.getD "") st
  else st

/-- `validate_rti_application`: the boolean result paired with the
final accumulators. -/
def validateRti (cfg : Config) (d : RtiData) : Bool × VState :=
  let st := missingFieldErrors
    ((rtiRequiredFields d).map (fun p => (p.1, missingOrBlank p.2))) VState.empty
  if st.errors ≠ [] then (false, st)
  else
    let st := rtiMainChecks cfg d st
    (st.blocking_issues = [] ∧ st.errors = [], st)

/-- Structured affidavit form input (`user_data` of
`validate_affidavit`). Absent dict keys are `none`. -/
structure AffidavitData where
  deponent_name : Option String
  age : Option String
  father_name : Option String
  address : Option String
  statements : Option (List String)
  state : Option String
  guardian_name : Option String
  guardian_age : Option String
  guardian_father_name : Option String
deriving DecidableEq, Repr

/-- Falsy test of the affidavit required-field loop
(`field not in user_data or not user_data[field]`): no `strip()` here,
so a whitespace-only string is truthy. -/
def strFalsy (o : Option String) : Bool :=
  match o with
  | none => true
  | some s => s = ""

/-- Falsy test of the `statements` field (an empty list is falsy). -/
def stmtsFalsy (o : Option (List String)) : Bool :=
  match o with
  | none => true
  | some l => l = []

/-- The affidavit required-field presence checks, in source order. -/
def affRequiredChecks (d : AffidavitData) : List (String × Bool) :=
  [("deponent_name", strFalsy d.deponent_name), ("age", strFalsy d.age),
   ("father_name", strFalsy d.father_name), ("address", strFalsy d.address),
   ("statements", stmtsFalsy d.statements)]

/-- Guardian-detail checks of `validate_affidavit` (lines 134-155),
run only when a guardian is needed. -/
def guardianChecks (d : AffidavitData) (st : VState) : VState :=
  let st := if !strTruthy d.guardian_name then
      addError "Guardian name is required for minor deponents"
        (addBlocking "🚫 Deponent is minor (under 18). Guardian details are MANDATORY." st)
    else st
  let st := if !strTruthy d.guardian_age then
      addError "Guardian age is required" st
    else st
  let st := if !strTruthy d.guardian_father_name then
      addError "Guardian\x27s father\x27s name is required" st
    else st
  if strTruthy d.guardian_age then
    match parseIntPy (d.guardian_age.getD "") with
    | some gAge => if gAge < 18 then addBlocking "🚫 Guardian must be at least 18 years old" st else st
    | none => addError "Guardian age must be a valid number" st
  else st

/-- Checks of `validate_affidavit` after the required-field gate and
the age check, in source order. -/
def affMainChecks (cfg : Config) (d : AffidavitData) (guardianNeeded : Bool)
    (st : VState) : VState :=
  let st := if guardianNeeded then guardianChecks d st else st
  let st := validateName (d.deponent_name.getD "") "Deponent Name" st
  let st := validateName (d.father_name.getD "") "Father\x27s/Husband\x27s Name" st
  let st := if guardianNeeded && strTruthy d.guardian_name then
      validateName (d.guardian_name.getD "") "Guardian Name" st
    else st
  let st := validateAddress (d.address.getD "") st
  let st := validateAffidavitStatements (d.statements.getD []) st
  if strTruthy d.state then
    checkStampRequirements cfg (d.state.getD "")
      (validateStateJurisdiction cfg (d.state.getD "") st)
  else st

/-- `validate_affidavit`: the boolean result paired with the final
accumulators. -/
def validateAffidavit (cfg : Config) (d : AffidavitData) : Bool × VState :=
  let st := missingFieldErrors (affRequiredChecks d) VState.empty
  if st.errors ≠ [] then (false, st)
  else
    let ageResult := validateAgeForAffidavit cfg (d.age.getD "")
      (d.state.getD "Maharashtra") st
    if !ageResult.2.1 then (false, ageResult.1)
    else
      let st := affMainChecks cfg d ageResult.2.2 ageResult.1
      (st.blocking_issues = [] ∧ st.errors = [], st)

/-! Spec-side reference definitions. The next two definitions follow
the wording of spec sentences (not the source) and exist only to be
compared against the source-derived definitions above. -/

/-- Spec formula for the affidavit score in claim C3 and spec section
4.2 step 3: raw score floored at zero first, edge-case bonus added on
top of the already-floored value. -/
def specFloorThenBonusAffidavitScore (descLower : String) : Int :=
  max 0 ((countMatches AFFIDAVIT_keywords descLower : Int) * 10
    - (countMatches AFFIDAVIT_negative_keywords descLower : Int) * 20)
  + edgeCaseBoost descLower

/-- Number of (possibly overlapping) occurrences of `needle` in the
character list, one position at a time. -/
def countOccAux (needle : List Char) : List Char → Nat
  | [] => if needle.isEmpty then 1 else 0
  | c :: rest => (if needle.isPrefixOf (c :: rest) then 1 else 0) + countOccAux needle rest

/-- Occurrence count of `needle` in `hay`. -/
def occurrenceCount (needle hay : String) : Nat := countOccAux needle.data hay.data

/-- Spec formula for the edge-case bonus in claim C8 and spec section
4.2 step 2: every occurrence of an edge-case phrase contributes 50. -/
def specOccurrenceEdgeBonus (descLower : String) : Int :=
  edge_case_keywords.foldl (fun b kw => b + 50 * (occurrenceCount kw descLower : Int)) 0

/-! Concrete inputs used by witnesses and counterexamples. -/

/-- Validator environment with no loaded profile or category data and
day ordinal 0 (any fixed day works for these inputs). -/
def cfgEmpty : Config := ⟨[], none, 0⟩

/-- Description used for the C3 counterexample: two affidavit negative
keywords (`pio`, `cpio`), no affidavit positive keyword, and one
edge-case phrase (`proof of my`). -/
def descNegBoost : String := "pio cpio proof of my"

/-- Description used for the C8 counterexample: one edge-case phrase
occurring twice. -/
def descTwiceEdge : String := "declare that i declare that i"

/-- Minor deponent without guardian details (C5 witness input). -/
def affMinorInput : AffidavitData :=
  ⟨some "Arjun Sharma", some "10", some "Ramesh Sharma",
   some "123 MG Road, Pune, Maharashtra - 411001",
   some ["that I am a student"], none, none, none, none⟩

/-- Deponent age `0`: parses below every default threshold but fails
the 1-120 validity check (C5 counterexample input). -/
def affAgeZeroInput : AffidavitData :=
  ⟨some "Arjun Sharma", some "0", some "Ramesh Sharma",
   some "123 MG Road, Pune, Maharashtra - 411001",
   some ["that I am a student"], none, none, none, none⟩

/-- Affidavit input whose `father_name` is a single space: blank, but
truthy for the affidavit required-field loop (C6 counterexample
input). -/
def affBlankFatherInput : AffidavitData :=
  ⟨some "Rajesh Kumar", some "30", some " ",
   some "123 MG Road, Pune, Maharashtra - 411001",
   some ["that I am a resident of Pune"], none, none, none, none⟩

/-- Affidavit input with several absent or empty required fields
(C6 witness input). -/
def affMissingInput : AffidavitData :=
  ⟨none, some "30", none, some "addr", some [], none, none, none, none⟩

/-- RTI input with a whitespace-only `name` (C6 witness input). -/
def rtiBlankNameInput : RtiData :=
  ⟨some "  ", some "123 MG Road, Pune, Maharashtra - 411001",
   some "Maharashtra", some "Municipal Corporation of Pune",
   some "PIO Office, Pune",
   some "Copy of the building permission file for survey number 12 from January 2023 to December 2023",
   none, false, none, none⟩

/-! Helper lemmas. -/

/-- Counting fold versus `countP`. -/
theorem foldl_count_eq (p : String → Bool) (l : List String) (n : Nat) :
    l.foldl (fun n kw => if p kw then n + 1 else n) n = n + l.countP p := by
  induction l generalizing n with
  | nil => simp
  | cons a l ih => simp only [List.foldl_cons, List.countP_cons, ih]; split <;> omega

/-- `countMatches` counts the keywords that occur in the text. -/
theorem countMatches_eq_countP (kws : List String) (h : String) :
    countMatches kws h = kws.countP (fun kw => inStr kw h) := by
  unfold countMatches; rw [foldl_count_eq]; omega

/-- Deduplication introduces no new elements. -/
theorem mem_dedupAux (x : String) (l : List String) :
    ∀ seen, x ∈ dedupAux seen l → x ∈ l := by
  induction l with
  | nil => intro seen h; simp [dedupAux] at h
  | cons a l ih =>
    intro seen h
    unfold dedupAux at h
    split at h
    · exact List.mem_cons_of_mem _ (ih _ h)
    · rcases List.mem_cons.mp h with h1 | h2
      · exact h1 ▸ List.mem_cons_self _ _
      · exact List.mem_cons_of_mem _ (ih _ h2)

/-- When no keyword of the insertion sequence occurs in the text, the
match count over the deduplicated set is zero. -/
theorem countMatches_dedup_zero (h : String) (l : List String) (seen : List String)
    (hall : l.all (fun kw => !inStr kw h) = true) :
    countMatches (dedupAux seen l) h = 0 := by
  rw [countMatches_eq_countP]
  rw [List.countP_eq_zero]
  intro kw hkw
  have hmem := mem_dedupAux kw l seen hkw
  have := List.all_eq_true.mp hall kw hmem
  simp only [Bool.not_eq_true'] at this
  simp [this]

/-- When no keyword of the raw expansion occurs in the text, the match
count over the expanded keyword set is zero. -/
theorem countMatches_expand_zero (base : List String) (h : String)
    (hall : (rawExpansion base).all (fun kw => !inStr kw h) = true) :
    countMatches (expandKeywords base) h = 0 :=
  countMatches_dedup_zero h (rawExpansion base) [] hall

/-- The boost fold pays 50 per list element that occurs in the text. -/
theorem foldl_boost_eq (p : String → Bool) (l : List String) (b : Int) :
    l.foldl (fun b kw => if p kw then b + 50 else b) b = b + 50 * (l.countP p : Int) := by
  induction l generalizing b with
  | nil => simp
  | cons a l ih =>
    simp only [List.foldl_cons, List.countP_cons, ih]
    split
    · push_cast
      ring
    · push_cast
      ring

/-- The edge-case boost equals 50 per edge-case phrase present. -/
theorem edgeBoost_eq (d : String) :
    edgeCaseBoost d = 50 * (edge_case_keywords.countP (fun kw => inStr kw d) : Int) := by
  unfold edgeCaseBoost
  rw [foldl_boost_eq]
  ring

/-- Evaluation of the scores of the empty description. -/
theorem computeScores_empty : computeScores "" = ⟨0, 0⟩ := by
  have h1 : countMatches RTI_keywords "" = 0 :=
    countMatches_expand_zero _ _ (by decide)
  have h2 : countMatches AFFIDAVIT_keywords "" = 0 :=
    countMatches_expand_zero _ _ (by decide)
  simp only [computeScores, RTI_keywords, AFFIDAVIT_keywords] at h1 h2 ⊢
  rw [h1, h2]
  decide

/-! Claim C4. -/

/-- C4: for every input text, the per-type scores computed by the
classifier are non-negative, whatever the negative-keyword penalties
are: both components of `computeScores` are clamped at zero. -/
theorem C4_scores_nonneg (descLower : String) :
    0 ≤ (computeScores descLower).rti ∧ 0 ≤ (computeScores descLower).aff := by
  unfold computeScores
  exact ⟨le_max_left 0 _, le_max_left 0 _⟩

/-! Claim C7. -/

/-- C7: the confidence bucket table of `analyze_requirements` is
monotone: raising the maximal score and the score gap never lowers the
computed confidence. -/
theorem C7_confidence_monotone (m g m2 g2 : Int) (hm : m ≤ m2) (hg : g ≤ g2) :
    confidenceFor m g ≤ confidenceFor m2 g2 := by
  unfold confidenceFor
  split_ifs <;> omega

/-- Witness for C7 at the concrete pairs (10, 0) and (50, 30). -/
theorem C7_confidence_monotone_witness :
    (10 : Int) ≤ 50 ∧ (0 : Int) ≤ 30 ∧ confidenceFor 10 0 ≤ confidenceFor 50 30 :=
  ⟨by decide, by decide, C7_confidence_monotone 10 0 50 30 (by decide) (by decide)⟩

/-! Claim C3. -/

/-- C3 (amended): the per-type score is the clamp at zero of
`10 * positive_matches - 20 * negative_matches`, with the edge-case
bonus added to the affidavit raw score before (not after) the clamp. -/
theorem C3_score_formula (descLower : String) :
    (computeScores descLower).rti
      = max 0 ((RTI_keywords.countP (fun kw => inStr kw descLower) : Int) * 10
          - (RTI_negative_keywords.countP (fun kw => inStr kw descLower) : Int) * 20)
    ∧ (computeScores descLower).aff
      = max 0 ((AFFIDAVIT_keywords.countP (fun kw => inStr kw descLower) : Int) * 10
          - (AFFIDAVIT_negative_keywords.countP (fun kw => inStr kw descLower) : Int) * 20
          + 50 * (edge_case_keywords.countP (fun kw => inStr kw descLower) : Int)) := by
  unfold computeScores
  rw [countMatches_eq_countP, countMatches_eq_countP, countMatches_eq_countP,
    countMatches_eq_countP, edgeBoost_eq]
  exact ⟨rfl, rfl⟩

/-- Counterexample for C3 as stated: on `"pio cpio proof of my"` the
code computes an affidavit score of 10 (the bonus of 50 is added to the
raw score of -40 before the clamp), while the claimed
floor-before-bonus formula yields 50. -/
theorem C3_counterexample :
    (computeScores descNegBoost).aff = 10
    ∧ specFloorThenBonusAffidavitScore descNegBoost = 50
    ∧ (computeScores descNegBoost).aff ≠ specFloorThenBonusAffidavitScore descNegBoost := by
  have hpos : countMatches AFFIDAVIT_keywords descNegBoost = 0 :=
    countMatches_expand_zero _ _ (by decide)
  have h1 : (computeScores descNegBoost).aff = 10 := by
    simp only [computeScores, AFFIDAVIT_keywords] at hpos ⊢
    rw [hpos]
    decide
  have h2 : specFloorThenBonusAffidavitScore descNegBoost = 50 := by
    simp only [specFloorThenBonusAffidavitScore, AFFIDAVIT_keywords] at hpos ⊢
    rw [hpos]
    decide
  exact ⟨h1, h2, by rw [h1, h2]; decide⟩

/-! Claim C8. -/

/-- C8 (amended): the edge-case bonus counts each edge-case phrase
present in the text once - 50 per phrase that occurs, regardless of how
many times it occurs. -/
theorem C8_boost_counts_presence (descLower : String) :
    edgeCaseBoost descLower
      = 50 * (edge_case_keywords.countP (fun kw => inStr kw descLower) : Int) :=
  edgeBoost_eq descLower

/-- Counterexample for C8 as stated: `"declare that i declare that i"`
contains the edge-case phrase `"declare that i"` twice, yet the code
adds 50, not the 100 the occurrence-counting claim prescribes. -/
theorem C8_counterexample :
    occurrenceCount "declare that i" descTwiceEdge = 2
    ∧ edgeCaseBoost descTwiceEdge = 50
    ∧ specOccurrenceEdgeBonus descTwiceEdge = 100
    ∧ edgeCaseBoost descTwiceEdge ≠ specOccurrenceEdgeBonus descTwiceEdge := by
  refine ⟨by decide, by decide, by decide, by decide⟩

/-- The clarification builder always reports `needs_clarification`. -/
theorem genClar_isClarification (b : Int) (s : Option DocType) (d : String)
    (sc : Scores) (q : Option (List String)) :
    (generateClarificationResponse b s d sc q).isClarification = true := by
  simp only [generateClarificationResponse, ClassifyResult.isClarification]

/-- The clarification builder reports confidence `max b 55`. -/
theorem genClar_confidence (b : Int) (s : Option DocType) (d : String)
    (sc : Scores) (q : Option (List String)) :
    (generateClarificationResponse b s d sc q).confidence = max b 55 := by
  simp only [generateClarificationResponse, ClassifyResult.confidence]

/-- The tail of the classifier either succeeds or reports a
clarification whose confidence is at least 55. -/
theorem finishClassify_cases (description descLower : String) (p : DocType)
    (c : Int) (s : Scores) :
    (finishClassify description descLower p c s).isClarification = false
    ∨ (finishClassify description descLower p c s).confidence ≥ 55 := by
  unfold finishClassify
  split
  · right
    rw [genClar_confidence]
    exact le_max_right c 55
  · left
    rfl

/-- Every result of `classify` is either a success or a clarification
whose confidence is at least 55. -/
theorem classify_cases (groq : Option GroqResult) (description : String) :
    (classify groq description).isClarification = false
    ∨ (classify groq description).confidence ≥ 55 := by
  cases groq with
  | none =>
    simp only [classify]
    split
    · right
      rw [genClar_confidence]
      exact le_max_right 0 55
    · exact finishClassify_cases _ _ _ _ _
  | some r =>
    simp only [classify]
    split
    · right
      rw [genClar_confidence]
      exact le_max_right 0 55
    · split <;>
        (split
         · split
           · exact finishClassify_cases _ _ _ _ _
           · split
             · right
               rw [genClar_confidence]
               exact le_max_right _ 55
             · exact finishClassify_cases _ _ _ _ _
         · exact finishClassify_cases _ _ _ _ _)

/-! Claim C10. -/

/-- C10: every needs-clarification result of `analyze_requirements`
carries a confidence of at least 55, because the clarification builder
replaces the computed confidence with `max(confidence, 55)`. -/
theorem C10_clarification_confidence_min (groq : Option GroqResult)
    (description : String)
    (h : (classify groq description).isClarification = true) :
    (classify groq description).confidence ≥ 55 := by
  rcases classify_cases groq description with hfalse | hge
  · rw [h] at hfalse
    exact absurd hfalse (by decide)
  · exact hge

/-- Evaluation of the classifier on the empty description. -/
theorem classify_empty_eq :
    classify none "" = generateClarificationResponse 0 none "" ⟨0, 0⟩ none := by
  have h : computeScores (pyLower "") = (⟨0, 0⟩ : Scores) := computeScores_empty
  simp only [classify, h]
  rw [if_pos ⟨trivial, trivial⟩]

/-- Witness for C10 at the empty description, which routes to the
zero-scores clarification branch. -/
theorem C10_clarification_confidence_min_witness :
    (classify none "").isClarification = true
    ∧ (classify none "").confidence ≥ 55 := by
  have h : (classify none "").isClarification = true := by
    rw [classify_empty_eq]
    exact genClar_isClarification 0 none "" ⟨0, 0⟩ none
  exact ⟨h, C10_clarification_confidence_min none "" h⟩

/-! Claim C2. -/

/-- C2 (amended): whenever both per-type scores are zero - in
particular when no keyword and no edge-case phrase occurs - the
classifier returns a needs-clarification result, and its reported
confidence is 55 (the computed 0 raised by the builder), not 0. -/
theorem C2_zero_scores_clarify (groq : Option GroqResult) (description : String)
    (h : computeScores (pyLower description) = ⟨0, 0⟩) :
    (classify groq description).isClarification = true
    ∧ (classify groq description).confidence = 55 := by
  have hbranch : classify groq description
      = generateClarificationResponse 0 none description ⟨0, 0⟩ none := by
    cases groq <;> simp only [classify, h] <;> rw [if_pos ⟨trivial, trivial⟩]
  rw [hbranch, genClar_confidence]
  exact ⟨genClar_isClarification 0 none description ⟨0, 0⟩ none, by decide⟩

/-- Witness for C2 (amended) at the empty description. -/
theorem C2_zero_scores_clarify_witness :
    computeScores (pyLower "") = ⟨0, 0⟩
    ∧ (classify none "").isClarification = true
    ∧ (classify none "").confidence = 55 := by
  have h0 : computeScores (pyLower "") = ⟨0, 0⟩ := computeScores_empty
  have hmain := C2_zero_scores_clarify none "" h0
  exact ⟨h0, hmain.1, hmain.2⟩

/-- Counterexample for C2 as stated: the empty description has zero
keyword matches in either document-type set, and `classify` does return
a needs-clarification result, but its confidence field is 55, not 0. -/
theorem C2_counterexample :
    (classify none "").isClarification = true
    ∧ (classify none "").confidence = 55
    ∧ (classify none "").confidence ≠ 0 := by
  rw [classify_empty_eq, genClar_confidence]
  exact ⟨genClar_isClarification 0 none "" ⟨0, 0⟩ none, by decide, by decide⟩

/-- An invalid age always leaves the error accumulator non-empty. -/
theorem ageInvalid_errors_ne (cfg : Config) (age state : String) (st : VState) :
    (validateAgeForAffidavit cfg age state st).2.1 = false →
    (validateAgeForAffidavit cfg age state st).1.errors ≠ [] := by
  unfold validateAgeForAffidavit
  split
  · intro _
    simp [addError]
  · split
    · intro _
      simp [addError]
    · intro h
      exact absurd h (by simp)

/-- RTI validation passes exactly when no blocking issue and no error
accumulated. -/
theorem validateRti_pass_iff (cfg : Config) (d : RtiData) :
    (validateRti cfg d).1 = true ↔
      (validateRti cfg d).2.blocking_issues = [] ∧ (validateRti cfg d).2.errors = [] := by
  simp only [validateRti]
  split
  · rename_i h
    simp [h]
  · simp [decide_eq_true_iff]

/-- Affidavit validation passes exactly when no blocking issue and no
error accumulated. -/
theorem validateAffidavit_pass_iff (cfg : Config) (d : AffidavitData) :
    (validateAffidavit cfg d).1 = true ↔
      (validateAffidavit cfg d).2.blocking_issues = []
      ∧ (validateAffidavit cfg d).2.errors = [] := by
  simp only [validateAffidavit]
  split
  · rename_i h
    simp [h]
  · split
    · rename_i hv
      have hne := ageInvalid_errors_ne cfg (d.age.getD "") (d.state.getD "Maharashtra") _
        (by simpa using hv)
      simp [hne]
    · simp [decide_eq_true_iff]

/-! Claim C1. -/

/-- C1: for both validators the boolean result is true exactly when the
run accumulated no blocking issue and no error; warnings and
suggestions never make it false. -/
theorem C1_pass_iff_no_blocking_no_errors (cfg : Config) (dR : RtiData)
    (dA : AffidavitData) :
    ((validateRti cfg dR).1 = true ↔
      (validateRti cfg dR).2.blocking_issues = [] ∧ (validateRti cfg dR).2.errors = [])
    ∧ ((validateAffidavit cfg dA).1 = true ↔
      (validateAffidavit cfg dA).2.blocking_issues = [] ∧ (validateAffidavit cfg dA).2.errors = []) :=
  ⟨validateRti_pass_iff cfg dR, validateAffidavit_pass_iff cfg dA⟩

/-! Blocking-accumulator lemmas for the checks that never add blocking
issues. -/

/-- Name validation never adds blocking issues. -/
theorem blocking_validateName (n f : String) (st : VState) :
    (validateName n f st).blocking_issues = st.blocking_issues := by
  simp only [validateName]
  split_ifs <;> rfl

/-- Address validation never adds blocking issues. -/
theorem blocking_validateAddress (a : String) (st : VState) :
    (validateAddress a st).blocking_issues = st.blocking_issues := by
  simp only [validateAddress]
  split_ifs <;> rfl

/-- State-jurisdiction validation never adds blocking issues. -/
theorem blocking_validateStateJurisdiction (cfg : Config) (s : String) (st : VState) :
    (validateStateJurisdiction cfg s st).blocking_issues = st.blocking_issues := by
  simp only [validateStateJurisdiction]
  split_ifs <;> rfl

/-- One statement check never adds blocking issues. -/
theorem blocking_validateOneStatement (st : VState) (p : Nat × String) :
    (validateOneStatement st p).blocking_issues = st.blocking_issues := by
  simp only [validateOneStatement]
  split_ifs <;> rfl

/-- The statement fold never adds blocking issues. -/
theorem blocking_foldStatements (l : List (Nat × String)) :
    ∀ st : VState, (l.foldl validateOneStatement st).blocking_issues = st.blocking_issues := by
  induction l with
  | nil => intro st; rfl
  | cons a l ih =>
    intro st
    rw [List.foldl_cons, ih, blocking_validateOneStatement]

/-- Statement validation never adds blocking issues. -/
theorem blocking_validateAffidavitStatements (stmts : List String) (st : VState) :
    (validateAffidavitStatements stmts st).blocking_issues = st.blocking_issues := by
  simp only [validateAffidavitStatements]
  split_ifs
  · rfl
  · rw [blocking_foldStatements]
    rfl
  · rw [blocking_foldStatements]

/-- The stamp-requirement check never adds blocking issues. -/
theorem blocking_checkStampRequirements (cfg : Config) (s : String) (st : VState) :
    (checkStampRequirements cfg s st).blocking_issues = st.blocking_issues := by
  simp only [checkStampRequirements]
  split
  · split_ifs <;> rfl
  · rfl

/-- When the guardian name is absent, the guardian checks add the
mandatory-guardian blocking issue, so the blocking accumulator ends
non-empty. -/
theorem guardianChecks_blocking_ne (d : AffidavitData) (st : VState)
    (hg : strTruthy d.guardian_name = false) :
    (guardianChecks d st).blocking_issues ≠ [] := by
  simp only [guardianChecks, hg, Bool.not_false, if_true]
  rcases hpa : parseIntPy (d.guardian_age.getD "") with _ | g <;>
    simp only [hpa] <;>
    split_ifs <;>
    simp [addError, addBlocking, addWarning, addSuggestion]

/-- The blocking accumulator after the affidavit main checks is the one
left by the (conditional) guardian checks. -/
theorem affMainChecks_blocking (cfg : Config) (d : AffidavitData) (g : Bool) (st : VState) :
    (affMainChecks cfg d g st).blocking_issues
      = (if g then guardianChecks d st else st).blocking_issues := by
  simp only [affMainChecks]
  have h1 : ∀ s : VState,
      (if strTruthy d.state = true then
        checkStampRequirements cfg (d.state.getD "")
          (validateStateJurisdiction cfg (d.state.getD "") s)
      else s).blocking_issues = s.blocking_issues := by
    intro s
    split_ifs
    · rw [blocking_checkStampRequirements, blocking_validateStateJurisdiction]
    · rfl
  have h2 : ∀ s : VState,
      (if (g && strTruthy d.guardian_name) = true then
        validateName (d.guardian_name.getD "") "Guardian Name" s
      else s).blocking_issues = s.blocking_issues := by
    intro s
    split_ifs
    · rw [blocking_validateName]
    · rfl
  rw [h1, blocking_validateAffidavitStatements, blocking_validateAddress, h2,
    blocking_validateName, blocking_validateName]

/-! Missing-required-field lemmas. -/

/-- When every required field is present, the required-field loop is a
no-op. -/
theorem missingFieldErrors_noop (checks : List (String × Bool)) (st : VState)
    (h : checks.all (fun p => !p.2) = true) :
    missingFieldErrors checks st = st := by
  induction checks generalizing st with
  | nil => rfl
  | cons a l ih =>
    rw [List.all_cons, Bool.and_eq_true] at h
    unfold missingFieldErrors at ih ⊢
    rw [List.foldl_cons]
    have ha : a.2 = false := by simpa using h.1
    rw [ha]
    simpa using ih st h.2

/-- The required-field loop appends exactly one missing-field message
per failing check, and touches nothing else. -/
theorem missingFieldErrors_eq (checks : List (String × Bool)) (st : VState) :
    missingFieldErrors checks st
      = { st with errors := st.errors
            ++ (checks.filter (fun p => p.2)).map (fun p => missingFieldMsg p.1) } := by
  induction checks generalizing st with
  | nil => simp [missingFieldErrors]
  | cons a l ih =>
    unfold missingFieldErrors at ih ⊢
    rw [List.foldl_cons, List.filter_cons]
    cases ha : a.2 with
    | false =>
      rw [if_neg Bool.false_ne_true, if_neg Bool.false_ne_true]
      exact ih st
    | true =>
      rw [if_pos rfl, if_pos rfl, ih]
      simp [addError, List.append_assoc]

/-! Claim C5. -/

/-- C5 (amended): for every affidavit input whose required fields are
present, whose deponent age parses to an integer that passes the 1-120
validity check and lies below the jurisdiction's guardian threshold
(default 18), and which provides no guardian name, validation
accumulates a non-empty set of blocking findings and returns false. -/
theorem C5_minor_without_guardian (cfg : Config) (d : AffidavitData) (n : Int)
    (hreq : (affRequiredChecks d).all (fun p => !p.2) = true)
    (hage : parseIntPy (d.age.getD "") = some n)
    (h1 : 1 ≤ n) (h2 : n ≤ 120)
    (hlim : n < guardianLimitOf cfg (d.state.getD "Maharashtra"))
    (hg : strTruthy d.guardian_name = false) :
    (validateAffidavit cfg d).2.blocking_issues ≠ []
    ∧ (validateAffidavit cfg d).1 = false := by
  have hmiss : missingFieldErrors (affRequiredChecks d) VState.empty = VState.empty :=
    missingFieldErrors_noop _ _ hreq
  have hvalid : (validateAgeForAffidavit cfg (d.age.getD "")
      (d.state.getD "Maharashtra") VState.empty).2.1 = true := by
    unfold validateAgeForAffidavit
    simp only [hage]
    rw [if_neg (by omega)]
  have hneeded : (validateAgeForAffidavit cfg (d.age.getD "")
      (d.state.getD "Maharashtra") VState.empty).2.2 = true := by
    unfold validateAgeForAffidavit
    simp only [hage]
    rw [if_neg (by omega)]
    exact decide_eq_true hlim
  have hblock : (validateAffidavit cfg d).2.blocking_issues ≠ [] := by
    simp only [validateAffidavit, hmiss]
    rw [if_neg (by simp [VState.empty])]
    rw [if_neg (by simp [hvalid])]
    simp only [affMainChecks_blocking, hneeded, if_true]
    exact guardianChecks_blocking_ne d _ hg
  refine ⟨hblock, ?_⟩
  rcases hb : (validateAffidavit cfg d).1 with _ | _
  · rfl
  · exact absurd ((validateAffidavit_pass_iff cfg d).mp hb).1 hblock

/-- Witness for C5 (amended) at a ten-year-old deponent with no
guardian details and no loaded jurisdiction profile. -/
theorem C5_minor_without_guardian_witness :
    ((affRequiredChecks affMinorInput).all (fun p => !p.2) = true
      ∧ parseIntPy (affMinorInput.age.getD "") = some 10
      ∧ (1 : Int) ≤ 10 ∧ (10 : Int) ≤ 120
      ∧ (10 : Int) < guardianLimitOf cfgEmpty (affMinorInput.state.getD "Maharashtra")
      ∧ strTruthy affMinorInput.guardian_name = false)
    ∧ ((validateAffidavit cfgEmpty affMinorInput).2.blocking_issues ≠ []
      ∧ (validateAffidavit cfgEmpty affMinorInput).1 = false) :=
  ⟨⟨by decide, by decide, by decide, by decide, by decide, by decide⟩,
   C5_minor_without_guardian cfgEmpty affMinorInput 10 (by decide) (by decide)
     (by decide) (by decide) (by decide) (by decide)⟩

/-- Counterexample for C5 as stated: the age string `"0"` parses to an
integer below the default guardian threshold of 18, no guardian name is
given, and validation does return false - but through the invalid-age
error, with an empty blocking set, contradicting the claimed non-empty
set of blocking findings. -/
theorem C5_counterexample :
    parseIntPy (affAgeZeroInput.age.getD "") = some 0
    ∧ (0 : Int) < 18
    ∧ guardianLimitOf cfgEmpty (affAgeZeroInput.state.getD "Maharashtra") = 18
    ∧ strTruthy affAgeZeroInput.guardian_name = false
    ∧ (validateAffidavit cfgEmpty affAgeZeroInput).2.blocking_issues = []
    ∧ (validateAffidavit cfgEmpty affAgeZeroInput).1 = false := by
  refine ⟨by decide, by decide, by decide, by decide, by decide, by decide⟩

/-! Claim C6. -/

/-- C6 (amended): the required-field gate aborts all later checks and
returns only the missing-field error messages - for RTI validation it
fires on missing or blank (whitespace-only) fields, but for affidavit
validation only on missing or falsy (empty) fields, a whitespace-only
required field passing its presence check. -/
theorem C6_missing_fields_abort (cfg : Config) (dR : RtiData) (dA : AffidavitData) :
    ((rtiRequiredFields dR).any (fun p => missingOrBlank p.2) = true →
      validateRti cfg dR =
        (false, ⟨((rtiRequiredFields dR).filter (fun p => missingOrBlank p.2)).map
          (fun p => missingFieldMsg p.1), [], [], []⟩))
    ∧ ((affRequiredChecks dA).any (fun p => p.2) = true →
      validateAffidavit cfg dA =
        (false, ⟨((affRequiredChecks dA).filter (fun p => p.2)).map
          (fun p => missingFieldMsg p.1), [], [], []⟩)) := by
  constructor
  · intro hany
    have hst : missingFieldErrors
        ((rtiRequiredFields dR).map (fun p => (p.1, missingOrBlank p.2))) VState.empty
        = ⟨((rtiRequiredFields dR).filter (fun p => missingOrBlank p.2)).map
            (fun p => missingFieldMsg p.1), [], [], []⟩ := by
      rw [missingFieldErrors_eq]
      simp [VState.empty, List.filter_map, Function.comp_def]
    have hne : (((rtiRequiredFields dR).filter (fun p => missingOrBlank p.2)).map
        (fun p => missingFieldMsg p.1)) ≠ [] := by
      rcases List.any_eq_true.mp hany with ⟨p, hp, hmp⟩
      have : p ∈ (rtiRequiredFields dR).filter (fun p => missingOrBlank p.2) :=
        List.mem_filter.mpr ⟨hp, hmp⟩
      simp only [ne_eq, List.map_eq_nil_iff]
      exact List.ne_nil_of_mem this
    simp only [validateRti, hst]
    rw [if_pos hne]
  · intro hany
    have hst : missingFieldErrors (affRequiredChecks dA) VState.empty
        = ⟨((affRequiredChecks dA).filter (fun p => p.2)).map
            (fun p => missingFieldMsg p.1), [], [], []⟩ := by
      rw [missingFieldErrors_eq]
      simp [VState.empty]
    have hne : (((affRequiredChecks dA).filter (fun p => p.2)).map
        (fun p => missingFieldMsg p.1)) ≠ [] := by
      rcases List.any_eq_true.mp hany with ⟨p, hp, hmp⟩
      have : p ∈ (affRequiredChecks dA).filter (fun p => p.2) :=
        List.mem_filter.mpr ⟨hp, hmp⟩
      simp only [ne_eq, List.map_eq_nil_iff]
      exact List.ne_nil_of_mem this
    simp only [validateAffidavit, hst]
    rw [if_pos hne]

/-- Witness for C6 (amended) at a blank RTI name and several absent
affidavit fields. -/
theorem C6_missing_fields_abort_witness :
    ((rtiRequiredFields rtiBlankNameInput).any (fun p => missingOrBlank p.2) = true
      ∧ validateRti cfgEmpty rtiBlankNameInput
        = (false, ⟨["❌ Missing required field: name"], [], [], []⟩))
    ∧ ((affRequiredChecks affMissingInput).any (fun p => p.2) = true
      ∧ validateAffidavit cfgEmpty affMissingInput
        = (false, ⟨["❌ Missing required field: deponent_name",
                    "❌ Missing required field: father_name",
                    "❌ Missing required field: statements"], [], [], []⟩)) := by
  have hR := (C6_missing_fields_abort cfgEmpty rtiBlankNameInput affMissingInput).1 (by decide)
  have hA := (C6_missing_fields_abort cfgEmpty rtiBlankNameInput affMissingInput).2 (by decide)
  refine ⟨⟨by decide, ?_⟩, ⟨by decide, ?_⟩⟩
  · rw [hR]
    decide
  · rw [hA]
    decide

/-- Counterexample for C6 as stated: a whitespace-only `father_name` is
blank, yet affidavit validation does not return the missing-field
message for it - the presence check passes and the later name check
records a different error. -/
theorem C6_counterexample :
    missingOrBlank affBlankFatherInput.father_name = true
    ∧ (validateAffidavit cfgEmpty affBlankFatherInput).2.errors
        = ["❌ Father\x27s/Husband\x27s Name must be at least 3 characters"]
    ∧ (validateAffidavit cfgEmpty affBlankFatherInput).2.errors
        ≠ ((affRequiredChecks affBlankFatherInput).filter (fun p => p.2)).map
            (fun p => missingFieldMsg p.1) := by
  refine ⟨by decide, by decide, by decide⟩

/-! Question-bank facts and selector lemmas for claim C9. -/

/-- The eleven bank entries are pairwise distinct. -/
theorem bank_nodup : CLARIFICATION_QUESTIONS.Nodup := by decide

/-- Every bank entry has exactly four questions. -/
theorem bank_questions_len :
    ∀ c ∈ CLARIFICATION_QUESTIONS, c.questions.length = 4 := by decide

/-- Question texts are not shared between distinct bank entries. -/
theorem bank_texts_disjoint :
    ∀ c1 ∈ CLARIFICATION_QUESTIONS, ∀ c2 ∈ CLARIFICATION_QUESTIONS,
      c1 ≠ c2 → ∀ q ∈ c1.questions, ¬(c2.questions.contains q = true) := by decide

/-- The fallback entry is a bank entry. -/
theorem confusion_mem_bank : catConfusionResolution ∈ CLARIFICATION_QUESTIONS := by decide

/-- One relevance step adds the visited category at most once. -/
theorem count_relevantStep (dl p : String) (c : QCat) (acc : List QCat) (a : QCat) :
    (relevantStep dl p acc a).count c ≤ acc.count c + [a].count c := by
  unfold relevantStep
  split_ifs <;> simp [List.count_cons, List.count_append]

/-- The relevance fold visits each category once, so each ends up in
the accumulator at most once more than it started. -/
theorem count_relevantFold (dl p : String) (c : QCat) (l : List QCat) :
    ∀ acc : List QCat,
      (l.foldl (relevantStep dl p) acc).count c ≤ acc.count c + l.count c := by
  induction l with
  | nil => intro acc; simp
  | cons a l ih =>
    intro acc
    rw [List.foldl_cons]
    calc (l.foldl (relevantStep dl p) (relevantStep dl p acc a)).count c
        ≤ (relevantStep dl p acc a).count c + l.count c := ih _
      _ ≤ (acc.count c + [a].count c) + l.count c := by
          have := count_relevantStep dl p c acc a
          omega
      _ = acc.count c + (a :: l).count c := by
          simp only [List.count_cons, List.count_nil]
          omega

/-- Each category occurs at most once among the relevant ones. -/
theorem count_relevantCats (dl p : String) (c : QCat) :
    (relevantCats dl p).count c ≤ 1 := by
  have h := count_relevantFold dl p c CLARIFICATION_QUESTIONS []
  have hnodup := List.nodup_iff_count_le_one.mp bank_nodup c
  unfold relevantCats
  simp only [List.count_nil] at h
  omega

/-- One relevance step introduces no category outside the bank entry
it visits. -/
theorem mem_relevantStep (dl p : String) (x : QCat) (acc : List QCat) (a : QCat)
    (h : x ∈ relevantStep dl p acc a) : x ∈ acc ∨ x = a := by
  unfold relevantStep at h
  split_ifs at h
  · rcases List.mem_cons.mp h with h1 | h2
    · right; exact h1
    · left; exact h2
  · rcases List.mem_append.mp h with h1 | h2
    · left; exact h1
    · right; simpa using h2
  · left; exact h

/-- Every relevant category comes from the processed part of the bank. -/
theorem mem_relevantFold (dl p : String) (x : QCat) (l : List QCat) :
    ∀ acc : List QCat, x ∈ l.foldl (relevantStep dl p) acc → x ∈ acc ∨ x ∈ l := by
  induction l with
  | nil => intro acc h; left; exact h
  | cons a l ih =>
    intro acc h
    rcases ih _ h with h1 | h2
    · rcases mem_relevantStep dl p x acc a h1 with h3 | h4
      · left; exact h3
      · right; exact h4 ▸ List.mem_cons_self a l
    · right; exact List.mem_cons_of_mem a h2

/-- Every relevant category is a bank entry. -/
theorem mem_relevantCats (dl p : String) (x : QCat)
    (h : x ∈ relevantCats dl p) : x ∈ CLARIFICATION_QUESTIONS := by
  rcases mem_relevantFold dl p x CLARIFICATION_QUESTIONS [] h with h1 | h2
  · exact absurd h1 (List.not_mem_nil x)
  · exact h2

/-- The question fold is an append of per-category contributions. -/
theorem foldl_catQItems (primary : String) (l : List QCat) :
    ∀ init : List QItem,
      l.foldl (fun acc cat => acc ++ catQItems primary cat) init
        = init ++ l.flatMap (catQItems primary) := by
  induction l with
  | nil => intro init; simp
  | cons a l ih =>
    intro init
    rw [List.foldl_cons, ih, List.flatMap_cons, List.append_assoc]

/-- A selected bank category contributes exactly two questions. -/
theorem catQItems_length (primary : String) (c : QCat)
    (h : c ∈ CLARIFICATION_QUESTIONS) : (catQItems primary c).length = 2 := by
  have h4 := bank_questions_len c h
  simp [catQItems, h4]

/-- Contributions of a different bank category carry none of this
category's question texts. -/
theorem catQItems_countP_ne (primary : String) (c0 a : QCat)
    (hc0 : c0 ∈ CLARIFICATION_QUESTIONS) (ha : a ∈ CLARIFICATION_QUESTIONS)
    (hne : a ≠ c0) :
    (catQItems primary a).countP (fun q => c0.questions.contains q.text) = 0 := by
  rw [List.countP_eq_zero]
  intro q hq
  rcases List.mem_map.mp hq with ⟨t, ht, rfl⟩
  have ht2 : t ∈ a.questions := List.mem_of_mem_take ht
  exact fun habs => bank_texts_disjoint a ha c0 hc0 hne t ht2 habs

/-- Categories not containing this one contribute no question text of
it at all. -/
theorem countP_flatMap_zero (primary : String) (c0 : QCat)
    (hc0 : c0 ∈ CLARIFICATION_QUESTIONS) (l : List QCat) :
    (∀ x ∈ l, x ∈ CLARIFICATION_QUESTIONS) → c0 ∉ l →
      (l.flatMap (catQItems primary)).countP (fun q => c0.questions.contains q.text) = 0 := by
  induction l with
  | nil => intro _ _; simp
  | cons a l ih =>
    intro hmem hnot
    rw [List.flatMap_cons, List.countP_append]
    have ha : a ∈ CLARIFICATION_QUESTIONS := hmem a (List.mem_cons_self a l)
    have hne : a ≠ c0 := fun habs => hnot (habs ▸ List.mem_cons_self a l)
    rw [catQItems_countP_ne primary c0 a hc0 ha hne]
    rw [ih (fun x hx => hmem x (List.mem_cons_of_mem a hx))
      (fun habs => hnot (List.mem_cons_of_mem a habs))]

/-- A list of bank categories containing this one at most once
contributes at most two of its question texts. -/
theorem countP_flatMap_le (primary : String) (c0 : QCat)
    (hc0 : c0 ∈ CLARIFICATION_QUESTIONS) (l : List QCat) :
    (∀ x ∈ l, x ∈ CLARIFICATION_QUESTIONS) → l.count c0 ≤ 1 →
      (l.flatMap (catQItems primary)).countP (fun q => c0.questions.contains q.text) ≤ 2 := by
  induction l with
  | nil => intro _ _; simp
  | cons a l ih =>
    intro hmem hcount
    rw [List.flatMap_cons, List.countP_append]
    have ha : a ∈ CLARIFICATION_QUESTIONS := hmem a (List.mem_cons_self a l)
    by_cases heq : a = c0
    · subst heq
      have h1 : (catQItems primary a).countP (fun q => a.questions.contains q.text) ≤ 2 := by
        calc (catQItems primary a).countP (fun q => a.questions.contains q.text)
            ≤ (catQItems primary a).length := List.countP_le_length _
          _ = 2 := catQItems_length primary a ha
      have hzero : a ∉ l := by
        intro habs
        have := List.count_pos_iff.mpr habs
        rw [List.count_cons_self] at hcount
        omega
      rw [countP_flatMap_zero primary a ha l
        (fun x hx => hmem x (List.mem_cons_of_mem a hx)) hzero]
      omega
    · rw [catQItems_countP_ne primary c0 a hc0 ha heq]
      have hc : l.count c0 ≤ 1 := by
        rw [List.count_cons] at hcount
        omega
      have := ih (fun x hx => hmem x (List.mem_cons_of_mem a hx)) hc
      omega

/-- Lists whose members all satisfy the per-element length 2 have
flat-map length twice their length. -/
theorem flatMap_length_two (primary : String) (l : List QCat)
    (h : ∀ x ∈ l, x ∈ CLARIFICATION_QUESTIONS) :
    (l.flatMap (catQItems primary)).length = 2 * l.length := by
  induction l with
  | nil => simp
  | cons a l ih =>
    rw [List.flatMap_cons, List.length_append,
      catQItems_length primary a (h a (List.mem_cons_self a l)),
      ih (fun x hx => h x (List.mem_cons_of_mem a hx))]
    simp [List.length_cons]
    omega

/-- A text with no trigger match leaves the relevance fold untouched. -/
theorem relevantFold_no_match (dl p : String) (l : List QCat)
    (h : ∀ c ∈ l, ∀ kw ∈ c.trigger_keywords, inStr kw dl = false) :
    ∀ acc : List QCat, l.foldl (relevantStep dl p) acc = acc := by
  induction l with
  | nil => intro acc; rfl
  | cons a l ih =>
    intro acc
    rw [List.foldl_cons]
    have hstep : relevantStep dl p acc a = acc := by
      unfold relevantStep
      rw [if_neg]
      simp only [List.any_eq_true, not_exists, not_and]
      intro kw hkw
      rw [h a (List.mem_cons_self a l) kw hkw]
      simp
    rw [hstep]
    exact ih (fun c hc => h c (List.mem_cons_of_mem a hc)) acc

/-- Core counting facts of the selector, for any non-empty list of
pairwise-distinct bank categories. -/
theorem selector_core (primary : String) (cats : List QCat)
    (hne : cats ≠ []) (hmem : ∀ x ∈ cats, x ∈ CLARIFICATION_QUESTIONS)
    (hcount : ∀ c : QCat, cats.count c ≤ 1) :
    (2 ≤ (((cats.take (min 2 cats.length)).flatMap (catQItems primary)).take 4).length
      ∧ (((cats.take (min 2 cats.length)).flatMap (catQItems primary)).take 4).length ≤ 4)
    ∧ ∀ c ∈ CLARIFICATION_QUESTIONS,
        ((((cats.take (min 2 cats.length)).flatMap (catQItems primary)).take 4).countP
          (fun q => c.questions.contains q.text)) ≤ 2 := by
  have hsel_mem : ∀ x ∈ cats.take (min 2 cats.length), x ∈ CLARIFICATION_QUESTIONS :=
    fun x hx => hmem x (List.take_subset _ _ hx)
  have hlen_flat : ((cats.take (min 2 cats.length)).flatMap (catQItems primary)).length
      = 2 * (cats.take (min 2 cats.length)).length :=
    flatMap_length_two primary _ hsel_mem
  have hlen_sel : (cats.take (min 2 cats.length)).length = min 2 cats.length := by
    rw [List.length_take]
    omega
  have hpos : 1 ≤ cats.length := List.length_pos.mpr hne
  constructor
  · rw [List.length_take, hlen_flat, hlen_sel]
    omega
  · intro c hc
    have h1 : (((cats.take (min 2 cats.length)).flatMap (catQItems primary)).take 4).countP
        (fun q => c.questions.contains q.text)
        ≤ ((cats.take (min 2 cats.length)).flatMap (catQItems primary)).countP
          (fun q => c.questions.contains q.text) :=
      (List.take_sublist _ _).countP_le _
    have h2 := countP_flatMap_le primary c hc (cats.take (min 2 cats.length)) hsel_mem
      (((List.take_sublist _ _).count_le c).trans (hcount c))
    omega

/-! Claim C9. -/

/-- C9: the clarification selector returns between two and four
questions, takes at most two from any single question-bank category,
and, when no trigger keyword of any category occurs in the text, falls
back to the first two questions of the confusion-resolution category. -/
theorem C9_clarification_selector (description : String) (scores : Scores) :
    (2 ≤ (selectClarificationQuestions description scores).length
      ∧ (selectClarificationQuestions description scores).length ≤ 4)
    ∧ (∀ c ∈ CLARIFICATION_QUESTIONS,
        (selectClarificationQuestions description scores).countP
          (fun q => c.questions.contains q.text) ≤ 2)
    ∧ ((∀ c ∈ CLARIFICATION_QUESTIONS, ∀ kw ∈ c.trigger_keywords,
          inStr kw (pyLower description) = false) →
        selectClarificationQuestions description scores
          = catQItems (primaryCategory scores) catConfusionResolution) := by
  have hexp : selectClarificationQuestions description scores
      = (((if relevantCats (pyLower description) (primaryCategory scores) = []
             then [catConfusionResolution]
             else relevantCats (pyLower description) (primaryCategory scores)).take
            (min 2 (if relevantCats (pyLower description) (primaryCategory scores) = []
             then [catConfusionResolution]
             else relevantCats (pyLower description) (primaryCategory scores)).length)).flatMap
          (catQItems (primaryCategory scores))).take 4 := by
    simp only [selectClarificationQuestions]
    rw [foldl_catQItems]
    rw [List.nil_append]
  have hne : (if relevantCats (pyLower description) (primaryCategory scores) = []
      then [catConfusionResolution]
      else relevantCats (pyLower description) (primaryCategory scores)) ≠ [] := by
    split
    · simp
    · assumption
  have hmem : ∀ x ∈ (if relevantCats (pyLower description) (primaryCategory scores) = []
      then [catConfusionResolution]
      else relevantCats (pyLower description) (primaryCategory scores)),
      x ∈ CLARIFICATION_QUESTIONS := by
    split
    · intro x hx
      rw [List.mem_singleton.mp hx]
      exact confusion_mem_bank
    · intro x hx
      exact mem_relevantCats _ _ x hx
  have hcount : ∀ c : QCat, ((if relevantCats (pyLower description) (primaryCategory scores) = []
      then [catConfusionResolution]
      else relevantCats (pyLower description) (primaryCategory scores)).count c) ≤ 1 := by
    intro c
    split
    · exact List.nodup_iff_count_le_one.mp (by decide) c
    · exact count_relevantCats _ _ c
  have hcore := selector_core (primaryCategory scores) _ hne hmem hcount
  refine ⟨by rw [hexp]; exact hcore.1, by rw [hexp]; exact hcore.2, ?_⟩
  intro hno
  have hrelnil : relevantCats (pyLower description) (primaryCategory scores) = [] :=
    relevantFold_no_match (pyLower description) (primaryCategory scores)
      CLARIFICATION_QUESTIONS hno []
  rw [hexp, hrelnil]
  rfl

/-- Witness for C9 at the empty description and zero scores: no trigger
matches, so the fallback applies and exactly two questions of the
confusion-resolution category are returned. -/
theorem C9_clarification_selector_witness :
    (2 ≤ (selectClarificationQuestions "" ⟨0, 0⟩).length
      ∧ (selectClarificationQuestions "" ⟨0, 0⟩).length ≤ 4)
    ∧ (∀ c ∈ CLARIFICATION_QUESTIONS,
        (selectClarificationQuestions "" ⟨0, 0⟩).countP
          (fun q => c.questions.contains q.text) ≤ 2)
    ∧ (∀ c ∈ CLARIFICATION_QUESTIONS, ∀ kw ∈ c.trigger_keywords,
        inStr kw (pyLower "") = false)
    ∧ selectClarificationQuestions "" ⟨0, 0⟩
        = catQItems (primaryCategory ⟨0, 0⟩) catConfusionResolution := by
  have h := C9_clarification_selector "" ⟨0, 0⟩
  have hno : ∀ c ∈ CLARIFICATION_QUESTIONS, ∀ kw ∈ c.trigger_keywords,
      inStr kw (pyLower "") = false := by decide
  exact ⟨h.1, h.2.1, hno, h.2.2 hno⟩

end DraftGen
